import Mathlib

/-!
Verification development for the telematics trip-monitoring engine
(React Native app `TelematicsApp`): the speed-limit resolver with its
grid cache (`speedLimitService.js`), and the in-app trip session state
machine (location pipeline, harsh-event / crash detection, speeding
monitor, trip start/end handlers) from the main application component.

Numbers are modelled as exact rationals (`ℚ`); JavaScript `Math.round`
is `⌊x + 1/2⌋`.  The haversine distance (`distanceKm`) involves
transcendental functions, so every definition that consumes it is
parametrised by the distance function `dist : ℚ → ℚ → ℚ → ℚ → ℚ`.
-/

namespace Telematics

/-- JavaScript `Math.round`: round half toward positive infinity. -/
def jsRound (x : ℚ) : ℤ := ⌊x + 1/2⌋

/-! ## Speed-limit resolver (`speedLimitService.js`, `getSpeedLimit`) -/

/-- `LEBANON_LEGAL_LIMITS` table (without the `default` entry, which is
applied by `legalLimitFor` below, mirroring `LIMITS[roadType] || LIMITS.default`). -/
def LEBANON_LEGAL_LIMITS (roadType : String) : Option ℕ :=
  if roadType = "motorway" then some 120
  else if roadType = "trunk" then some 100
  else if roadType = "primary" then some 80
  else if roadType = "secondary" then some 80
  else if roadType = "tertiary" then some 60
  else if roadType = "residential" then some 50
  else if roadType = "living_street" then some 25
  else if roadType = "service" then some 25
  else if roadType = "track" then some 25
  else if roadType = "unclassified" then some 50
  else none

/-- `LEBANON_LEGAL_LIMITS[roadType] || LEBANON_LEGAL_LIMITS.default` (default 60).
All table values are nonzero, so JS falsy-fallback is exactly the missing-key case. -/
def legalLimitFor (roadType : String) : ℕ :=
  (LEBANON_LEGAL_LIMITS roadType).getD 60

def isDigitChar (c : Char) : Bool := 48 ≤ c.toNat && c.toNat ≤ 57

/-- First maximal digit run of the string, as matched by the regex `(\d+)`. -/
def firstDigitRun : List Char → Option (List Char)
  | [] => none
  | c :: rest =>
    if isDigitChar c then some (c :: rest.takeWhile isDigitChar)
    else firstDigitRun rest

/-- Decimal value of a digit run (`parseInt(..., 10)`). -/
def digitsToNat (ds : List Char) : ℕ :=
  ds.foldl (fun a c => a * 10 + (c.toNat - 48)) 0

/-- Whether the lower-cased character list contains the substring `mph`. -/
def hasMphAt : List Char → Bool
  | a :: b :: c :: _ => a.toNat == 109 && b.toNat == 112 && c.toNat == 104
  | _ => false

def hasMph : List Char → Bool
  | [] => false
  | c :: rest => hasMphAt (c :: rest) || hasMph rest

/-- Parse the OSM `maxspeed` tag: first digit run via `/(\d+)/`, then
mph→km/h conversion `Math.round(osmSpeed * 1.60934)` when the tag
(lower-cased) contains `mph`.  Returns `none` when no digits match. -/
def parseOsmSpeed (tag : String) : Option ℕ :=
  match firstDigitRun tag.data with
  | none => none
  | some ds =>
    let n := digitsToNat ds
    if hasMph (tag.data.map Char.toLower) then
      some (jsRound ((n : ℚ) * 160934 / 100000)).toNat
    else
      some n

/-- One road descriptor from the Overpass response: `tags.highway`
(always present, the query filters on it) and the optional `tags.maxspeed`. -/
structure Road where
  highway : String
  maxspeed : Option String
deriving DecidableEq, Repr

/-- `let osmSpeed = null; if (maxspeedTag) { ...parse... }` — the tag is
ignored when absent or the empty string (JS falsy). -/
def osmSpeedOf (road : Road) : Option ℕ :=
  match road.maxspeed with
  | none => none
  | some tag => if tag = "" then none else parseOsmSpeed tag

/-- The resolver result value. `source` is the JS string `'osm'`,
`'legal'`, `'legal_validated'`, `'default'` or `'default_error'`. -/
structure SpeedLimitInfo where
  speedLimit : ℕ
  source : String
  osmSpeed : Option ℕ
  roadType : Option String
  legalLimit : ℕ
deriving DecidableEq, Repr

/-- The no-road-found result (`source: 'default'`). -/
def defaultInfo : SpeedLimitInfo := ⟨60, "default", none, none, 60⟩

/-- The caught-error result (`source: 'default_error'`). -/
def defaultErrorInfo : SpeedLimitInfo := ⟨60, "default_error", none, none, 60⟩

/-- Outcome of the external Overpass query, as seen by `getSpeedLimit`:
the awaited `axios.post` either throws (network error / 5 s timeout),
returns a malformed body (`response.data` or `.elements` falsy), or
returns a list of road elements (possibly empty). -/
inductive FetchOutcome where
  | failure (msg : String)
  | malformed
  | roads (elements : List Road)
deriving DecidableEq, Repr

/-- Decision logic of `getSpeedLimit` for the first returned road
(lines 46–93 of `speedLimitService.js`). -/
def resolveRoad (road : Road) : SpeedLimitInfo :=
  let roadType := road.highway
  let osmSpeed := osmSpeedOf road
  let legalLimit := legalLimitFor roadType
  match osmSpeed with
  | none => ⟨legalLimit, "legal", none, some roadType, legalLimit⟩
  | some v =>
    if ((v : ℤ) - (legalLimit : ℤ)).natAbs ≤ 20 then
      ⟨v, "osm", some v, some roadType, legalLimit⟩
    else
      ⟨legalLimit, "legal_validated", some v, some roadType, legalLimit⟩

/-- The `try` block of `getSpeedLimit`: a thrown axios error propagates
(as `Except.error`); every other outcome produces a value. -/
def getSpeedLimitTry (o : FetchOutcome) : Except String SpeedLimitInfo :=
  match o with
  | .failure m => .error m
  | .malformed => .ok defaultInfo
  | .roads [] => .ok defaultInfo
  | .roads (road :: _) => .ok (resolveRoad road)

/-- The `try/catch` of `getSpeedLimit` in the exception monad: any error
from the `try` block is converted into the `default_error` result, so the
whole function never produces `Except.error`. -/
def getSpeedLimitCatch (o : FetchOutcome) : Except String SpeedLimitInfo :=
  match getSpeedLimitTry o with
  | .ok v => .ok v
  | .error _ => .ok defaultErrorInfo

/-- `getSpeedLimit` as the caller sees it: the plain value delivered by
the catch wrapper (the `error` arm is unreachable). -/
def getSpeedLimit (o : FetchOutcome) : SpeedLimitInfo :=
  match getSpeedLimitCatch o with
  | .ok v => v
  | .error _ => defaultErrorInfo

/-! ## Speed-limit cache (`speedLimitService.js`, `getSpeedLimitCached`)

The module-level `speedLimitCache` is a JS `Map`, modelled as a list of
entries in key-insertion order (head = oldest).  `Map.set` on an
existing key overwrites in place (keeping the position); on a new key it
appends.  `keys().next().value` is the head's key. -/

structure CacheEntry where
  key : ℚ × ℚ
  data : SpeedLimitInfo
  timestamp : ℚ
deriving DecidableEq, Repr

/-- Grid cache key: both coordinates rounded to 3 decimals
(`Math.round(x * 1000) / 1000`). -/
def cacheKey (latitude longitude : ℚ) : ℚ × ℚ :=
  ((jsRound (latitude * 1000) : ℚ) / 1000, (jsRound (longitude * 1000) : ℚ) / 1000)

/-- `speedLimitCache.get(cacheKey)`: the (unique) entry with this key. -/
def cacheGet : List CacheEntry → ℚ × ℚ → Option CacheEntry
  | [], _ => none
  | e :: rest, k => if e.key = k then some e else cacheGet rest k

/-- `speedLimitCache.set(cacheKey, {data, timestamp})`: overwrite in
place when the key exists, else append. -/
def cacheSet : List CacheEntry → ℚ × ℚ → SpeedLimitInfo → ℚ → List CacheEntry
  | [], k, d, ts => [⟨k, d, ts⟩]
  | e :: rest, k, d, ts =>
    if e.key = k then ⟨k, d, ts⟩ :: rest else e :: cacheSet rest k d ts

def CACHE_DURATION_MS : ℚ := 120000

/-- One call to `getSpeedLimitCached`.  `queryResult` is the value the
external resolver would return if queried; `now` is `Date.now()`.
Returns (returned data, new cache state, whether an external query was
issued). -/
def getSpeedLimitCachedStep (queryResult : SpeedLimitInfo) (now latitude longitude : ℚ)
    (c : List CacheEntry) : SpeedLimitInfo × List CacheEntry × Bool :=
  let k := cacheKey latitude longitude
  let hit : Option SpeedLimitInfo :=
    match cacheGet c k with
    | some e => if now - e.timestamp < CACHE_DURATION_MS then some e.data else none
    | none => none
  match hit with
  | some d => (d, c, false)
  | none =>
    let c1 := cacheSet c k queryResult now
    let c2 := if c1.length > 100 then c1.drop 1 else c1
    (queryResult, c2, true)

/-- Folding a sequence of cached-resolver calls
(query-result, now, latitude, longitude) over a cache state. -/
def runCachedCalls : List (SpeedLimitInfo × ℚ × ℚ × ℚ) → List CacheEntry → List CacheEntry
  | [], c => c
  | (q, now, la, lo) :: rest, c =>
    runCachedCalls rest (getSpeedLimitCachedStep q now la lo c).2.1

/-! ## Trip session state (the `App` component's refs and state)

Each mutable `useRef`/`useState` cell of the component becomes a field.
Pure presentation state (styles, rendered text) is not modelled.
The accelerometer magnitude ref stores `sqrt(x²+y²+z²)` and is only ever
compared against the constants 13 and 39; since both sides are
non-negative we store the squared magnitude `accelMagSq` and compare
against 169 and 1521, which is equivalent. -/

inductive TripStatus where
  | idle
  | driving
deriving DecidableEq, Repr

structure LastLoc where
  lat : ℚ
  lng : ℚ
  time : ℚ
deriving DecidableEq, Repr

structure BufPoint where
  lat : ℚ
  lng : ℚ
  time : ℚ
  speed : ℚ
deriving DecidableEq, Repr

/-- One recorded harsh event: `kind` is the JS string `'braking'` or
`'acceleration'`; the source stores `new Date(now).toISOString()`, which
we keep as the millisecond value `now` itself (the conversion is a
strictly monotone injection). -/
structure HarshEvent where
  kind : String
  time : ℚ
  latitude : ℚ
  longitude : ℚ
  speed : ℚ
deriving DecidableEq, Repr

structure AppState where
  status : TripStatus
  speedKmh : ℚ
  safetyScore : Option ℚ
  errorMsg : Option String
  tripId : Option ℕ
  lastLocation : Option LastLoc
  speedSum : ℚ
  speedCount : ℕ
  tripLocationBuffer : List BufPoint
  lastHarshBrakeTime : ℚ
  lastHarshAccelTime : ℚ
  harshBrakeCount : ℕ
  harshAccelCount : ℕ
  harshEvents : List HarshEvent
  accelMagSq : ℚ
  crashDetected : Bool
  crashLat : Option ℚ
  crashLng : Option ℚ
  speedBasedCrash : Bool
  sensorBasedCrash : Bool
  speedingDuration : ℚ
  speedingViolations : ℕ
  maxSpeedOverLimit : ℚ
  lastSpeedCheckTime : ℚ
  currentSpeedLimit : Option ℚ
  wasSpeeding : Bool
  speedingStartTime : Option ℚ
  smoothedSpeed : ℚ
  recentSpeedSamples : List (ℚ × ℚ)
  autoStartInProgress : Bool
  isStartingTrip : Bool
deriving DecidableEq, Repr

/-- The component's initial state (all `useState`/`useRef` initialisers;
`accelerometerMagnitudeRef` starts at 9.8, so its square at 9.8²). -/
def initState : AppState where
  status := .idle
  speedKmh := 0
  safetyScore := none
  errorMsg := none
  tripId := none
  lastLocation := none
  speedSum := 0
  speedCount := 0
  tripLocationBuffer := []
  lastHarshBrakeTime := 0
  lastHarshAccelTime := 0
  harshBrakeCount := 0
  harshAccelCount := 0
  harshEvents := []
  accelMagSq := (98 / 10 : ℚ) * (98 / 10)
  crashDetected := false
  crashLat := none
  crashLng := none
  speedBasedCrash := false
  sensorBasedCrash := false
  speedingDuration := 0
  speedingViolations := 0
  maxSpeedOverLimit := 0
  lastSpeedCheckTime := 0
  currentSpeedLimit := none
  wasSpeeding := false
  speedingStartTime := none
  smoothedSpeed := 0
  recentSpeedSamples := []
  autoStartInProgress := false
  isStartingTrip := false

/-- A raw location fix as delivered to the `watchPosition` callback.
`none` coordinates model missing/NaN values, `timestampRaw` is the raw
`position.timestamp` (`none` models a non-number), `speedMs` is the raw
`coords.speed` in m/s. -/
structure Sample where
  latitude : Option ℚ
  longitude : Option ℚ
  timestampRaw : Option ℚ
  accuracy : Option ℚ
  speedMs : Option ℚ
deriving DecidableEq, Repr

/-- `typeof ts === 'number' ? (ts < 1e12 ? ts * 1000 : ts) : Date.now()`. -/
def sampleTime (nowFallback : ℚ) (tsRaw : Option ℚ) : ℚ :=
  match tsRaw with
  | some ts => if ts < 1000000000000 then ts * 1000 else ts
  | none => nowFallback

/-- `coordsSpeedMs != null && coordsSpeedMs >= 0 ? coordsSpeedMs * 3.6 : null`. -/
def coordsSpeedKmhOf (speedMs : Option ℚ) : Option ℚ :=
  match speedMs with
  | some v => if v ≥ 0 then some (v * (36 / 10)) else none
  | none => none

/-- Raw instantaneous speed for one sample (lines 201–219): prefer a
non-negative device speed; otherwise derive from displacement over
elapsed time under the jitter-rejection thresholds. -/
def computeRawSpeed (dist : ℚ → ℚ → ℚ → ℚ → ℚ) (prev : Option LastLoc)
    (latitude longitude time : ℚ) (accuracy : Option ℚ) (speedMs : Option ℚ) : ℚ :=
  let acc := accuracy.getD 999
  match coordsSpeedKmhOf speedMs with
  | some v => v
  | none =>
    match prev with
    | none => 0
    | some p =>
      let timeDeltaMs := time - p.time
      if timeDeltaMs ≥ 1500 then
        let distKm := dist p.lat p.lng latitude longitude
        let timeHours := timeDeltaMs / 1000 / 3600
        let accuracyOk := acc ≤ 35 ∨ acc > 500
        if timeHours > 0 ∧ distKm ≥ 15 / 1000 ∧ accuracyOk then distKm / timeHours
        else 0
      else 0

/-- `isGpsGood` (lines 495–504).  Note the `||` coercion: an accuracy of
exactly 0 is falsy in JS and becomes 999 here, unlike the `?? 999` used
for the speed computation. -/
def isGpsGood (accuracy : Option ℚ) (timeSinceLastUpdate : ℚ) : Bool :=
  let acc := match accuracy with
    | some a => if a = 0 then (999 : ℚ) else a
    | none => 999
  if acc ≤ 20 then true
  else if acc ≤ 30 ∧ timeSinceLastUpdate ≤ 3000 then true
  else false

/-- Exponential smoothing and display/aggregate speed update
(lines 221–230): α = 0.35, snap to raw below 2 km/h, display rounding,
and, while a trip is active, the running sum/count for the trip average. -/
def speedPhase (rawSpeed : ℚ) (s : AppState) : AppState :=
  let sm0 := s.smoothedSpeed * (65 / 100) + rawSpeed * (35 / 100)
  let sm := if rawSpeed < 2 then rawSpeed else sm0
  let s1 := { s with smoothedSpeed := sm, speedKmh := (jsRound (sm * 10) : ℚ) / 10 }
  if s1.tripId.isSome then
    { s1 with speedSum := s1.speedSum + rawSpeed, speedCount := s1.speedCount + 1 }
  else s1

/-- Last-accepted-position update (lines 236–240): move the reference
only when displaced ≥ 5 m (or when there was no prior fix). -/
def refUpdatePhase (dist : ℚ → ℚ → ℚ → ℚ → ℚ) (latitude longitude time : ℚ)
    (s : AppState) : AppState :=
  let moved :=
    match s.lastLocation with
    | none => true
    | some p => decide (dist p.lat p.lng latitude longitude ≥ 5 / 1000)
  if moved || s.lastLocation.isNone then
    { s with lastLocation := some ⟨latitude, longitude, time⟩ }
  else s

/-- Auto-start detection while idle (lines 246–261): keep a 30 s window
of raw-speed samples; when ≥3 samples in the last 12 s average ≥15 km/h,
mark an auto start as in progress (the asynchronous `handleStartTrip`
invocation it triggers is a separate `Op.start`). -/
def autoStartPhase (rawSpeed time : ℚ) (s : AppState) : AppState :=
  if s.tripId.isNone && !s.autoStartInProgress then
    let rs := (s.recentSpeedSamples ++ [(rawSpeed, time)]).filter
      (fun p => time - p.2 ≤ 30000)
    let last10 := rs.filter (fun p => time - p.2 ≤ 12000)
    let s1 := { s with recentSpeedSamples := rs }
    if last10.length ≥ 3 then
      let avg := (last10.map Prod.fst).sum / (last10.length : ℚ)
      if avg ≥ 15 then { s1 with autoStartInProgress := true } else s1
    else s1
  else s

/-- The braking arm of the cooldown block (lines 310–322): when the
candidate flag is set and ≥3 s have passed since the last counted brake,
count it, stamp the clock and append the event. -/
def brakeUpdate (flag : Bool) (latitude longitude time rawSpeed : ℚ)
    (s : AppState) : AppState :=
  if flag && decide (time - s.lastHarshBrakeTime ≥ 3000) then
    { s with harshBrakeCount := s.harshBrakeCount + 1,
             lastHarshBrakeTime := time,
             harshEvents := s.harshEvents ++
               [⟨"braking", time, latitude, longitude, rawSpeed⟩] }
  else s

/-- The acceleration arm of the cooldown block (lines 323–335). -/
def accelUpdate (flag : Bool) (latitude longitude time rawSpeed : ℚ)
    (s : AppState) : AppState :=
  if flag && decide (time - s.lastHarshAccelTime ≥ 3000) then
    { s with harshAccelCount := s.harshAccelCount + 1,
             lastHarshAccelTime := time,
             harshEvents := s.harshEvents ++
               [⟨"acceleration", time, latitude, longitude, rawSpeed⟩] }
  else s

/-- The braking candidate flag of the fusion rule (lines 277–306). -/
def countBrakeFlag (gpsGood sensorFlagged speedFlaggedBrake speedFlaggedAccel : Bool) :
    Bool :=
  if gpsGood then speedFlaggedBrake && sensorFlagged
  else sensorFlagged && (speedFlaggedBrake || !speedFlaggedAccel)

/-- The acceleration candidate flag of the fusion rule (lines 277–306). -/
def countAccelFlag (gpsGood sensorFlagged speedFlaggedBrake speedFlaggedAccel : Bool) :
    Bool :=
  if gpsGood then speedFlaggedAccel && sensorFlagged
  else sensorFlagged && (!speedFlaggedBrake && speedFlaggedAccel)

/-- Harsh braking/acceleration detection plus the speed-based crash
signal (lines 268–342), run when a previous fix exists and at least two
speed samples were counted.  `prevTime` is the previous accepted fix's
time, `prevSpeed` the last buffered speed (0 when the buffer was empty). -/
def harshPhase (latitude longitude time prevTime rawSpeed prevSpeed : ℚ)
    (accuracy : Option ℚ) (s : AppState) : AppState :=
  let timeDeltaSec := (time - prevTime) / 1000
  let s1 :=
    if 0.5 ≤ timeDeltaSec ∧ timeDeltaSec ≤ 5 then
      let gpsGood := isGpsGood accuracy (time - prevTime)
      let sensorFlagged := decide (s.accelMagSq > 169)
      let speedDropPercent :=
        if prevSpeed > 0 then (prevSpeed - rawSpeed) / prevSpeed * 100 else 0
      let speedRisePercent :=
        if prevSpeed > 0 then (rawSpeed - prevSpeed) / prevSpeed * 100 else 0
      let speedFlaggedBrake := decide (speedDropPercent ≥ 30)
      let speedFlaggedAccel := decide (speedRisePercent ≥ 30)
      let countBrake :=
        countBrakeFlag gpsGood sensorFlagged speedFlaggedBrake speedFlaggedAccel
      let countAccel :=
        countAccelFlag gpsGood sensorFlagged speedFlaggedBrake speedFlaggedAccel
      accelUpdate countAccel latitude longitude time rawSpeed
        (brakeUpdate countBrake latitude longitude time rawSpeed s)
    else s
  if prevSpeed ≥ 20 ∧ rawSpeed < 5 ∧ timeDeltaSec < 2 then
    { s1 with speedBasedCrash := true }
  else s1

/-- Crash fusion (lines 345–352): when both signals are set and no crash
was recorded this trip, record it and clear both signal flags. -/
def crashFusePhase (latitude longitude : ℚ) (s : AppState) : AppState :=
  if s.speedBasedCrash && s.sensorBasedCrash && !s.crashDetected then
    { s with crashDetected := true,
             crashLat := some latitude, crashLng := some longitude,
             speedBasedCrash := false, sensorBasedCrash := false }
  else s

/-- Speed-limit cadence gate (lines 355–357): every ≥10 s, stamp the
check time and fire the asynchronous cached-resolver fetch (whose
callback is modelled as a separate `Op.speedCheck`). -/
def cadencePhase (time : ℚ) (s : AppState) : AppState :=
  if time - s.lastSpeedCheckTime ≥ 10000 then
    { s with lastSpeedCheckTime := time }
  else s

/-- The whole `Geolocation.watchPosition` success callback
(lines 185–398) for one sample. -/
def processLocation (dist : ℚ → ℚ → ℚ → ℚ → ℚ) (nowFallback : ℚ) (sample : Sample)
    (s : AppState) : AppState :=
  match sample.latitude, sample.longitude with
  | some latitude, some longitude =>
    let s0 := { s with errorMsg := none }
    let time := sampleTime nowFallback sample.timestampRaw
    let prev := s0.lastLocation
    let rawSpeed :=
      computeRawSpeed dist prev latitude longitude time sample.accuracy sample.speedMs
    let prevSpeed :=
      match s0.tripLocationBuffer.getLast? with
      | some p => p.speed
      | none => 0
    let s1 := speedPhase rawSpeed s0
    let s2 := refUpdatePhase dist latitude longitude time s1
    let s3 := autoStartPhase rawSpeed time s2
    if s3.tripId.isSome then
      let s4 := { s3 with tripLocationBuffer :=
        s3.tripLocationBuffer ++ [⟨latitude, longitude, time, rawSpeed⟩] }
      let s5 :=
        match prev with
        | some p =>
          if s4.speedCount ≥ 2 then
            harshPhase latitude longitude time p.time rawSpeed prevSpeed sample.accuracy s4
          else s4
        | none => s4
      let s6 := crashFusePhase latitude longitude s5
      cadencePhase time s6
    else s3
  | _, _ => s

/-- Accelerometer subscription callback (lines 456–469): store the
magnitude (as its square) and raise the sensor crash flag on a >4 g
spike while a trip is active.  The 200 ms decay timer it schedules is
modelled by the separate `Op.sensorDecay`. -/
def processAccel (x y z : ℚ) (s : AppState) : AppState :=
  let magSq := x * x + y * y + z * z
  let s1 := { s with accelMagSq := magSq }
  if decide (magSq > 1521) && s1.tripId.isSome then
    { s1 with sensorBasedCrash := true }
  else s1

/-- JS truthiness of the stored episode start time: `null` and `0` are
falsy. -/
def isTruthyTime (o : Option ℚ) : Bool :=
  match o with
  | some t => decide (t ≠ 0)
  | none => false

/-- The `getSpeedLimitCached(...).then(...)` callback (lines 360–393):
`limitData` is delivered asynchronously; `rawSpeed` and `time` were
captured by the closure of the location callback that initiated the
fetch.  The callback re-checks nothing about the session. -/
def applySpeedCheck (limitData : SpeedLimitInfo) (rawSpeed time : ℚ)
    (s : AppState) : AppState :=
  let limit : ℚ := (limitData.speedLimit : ℚ)
  let s0 := { s with currentSpeedLimit := some limit }
  let isSpeeding := decide (rawSpeed > limit + 5)
  let s1 :=
    if isSpeeding && !s0.wasSpeeding then
      { s0 with wasSpeeding := true, speedingStartTime := some time,
                speedingViolations := s0.speedingViolations + 1 }
    else if !isSpeeding && s0.wasSpeeding then
      let sa := { s0 with wasSpeeding := false }
      if isTruthyTime sa.speedingStartTime then
        let dur := sa.speedingDuration + (time - sa.speedingStartTime.getD 0) / 1000
        { sa with speedingDuration := dur, speedingStartTime := none }
      else sa
    else s0
  if isSpeeding && decide (rawSpeed - limit > s1.maxSpeedOverLimit) then
    { s1 with maxSpeedOverLimit := rawSpeed - limit }
  else s1

/-- `handleStartTrip` (lines 525–579).  `backend` is the result of the
awaited `createTrip` call: `Except.ok id` on success.  The transient
`setIsStartingTrip(true)` is undone by the `finally` clause, so only its
final value appears. -/
def handleStartTrip (backend : Except String ℕ) (s : AppState) : AppState :=
  if s.isStartingTrip then s
  else
    let s0 := { s with errorMsg := none }
    match s0.lastLocation with
    | none => { s0 with errorMsg := some "Wait for location" }
    | some _ =>
      match backend with
      | .error m =>
        { s0 with errorMsg := some m, isStartingTrip := false,
                  autoStartInProgress := false }
      | .ok tid =>
        { s0 with tripId := some tid,
                  tripLocationBuffer := [],
                  speedSum := 0, speedCount := 0,
                  harshBrakeCount := 0, harshAccelCount := 0,
                  harshEvents := [],
                  lastHarshBrakeTime := 0, lastHarshAccelTime := 0,
                  crashDetected := false, crashLat := none, crashLng := none,
                  speedBasedCrash := false, sensorBasedCrash := false,
                  speedingDuration := 0, speedingViolations := 0,
                  maxSpeedOverLimit := 0, lastSpeedCheckTime := 0,
                  currentSpeedLimit := none,
                  wasSpeeding := false, speedingStartTime := none,
                  status := .driving, safetyScore := none,
                  isStartingTrip := false, autoStartInProgress := false }

/-- Total trip distance: sum of pairwise haversine distances over the
buffer (computed inside `handleEndTrip` and sent to the backend). -/
def tripTotalDistanceKm (dist : ℚ → ℚ → ℚ → ℚ → ℚ) : List BufPoint → ℚ
  | [] => 0
  | [_] => 0
  | a :: b :: rest => dist a.lat a.lng b.lat b.lng + tripTotalDistanceKm dist (b :: rest)

/-- `handleEndTrip` (lines 582–645).  `now` is `new Date().getTime()`;
`backend` is the awaited `endTrip` PATCH result carrying the safety
score.  Note the finalization sets `wasSpeedingRef` to false but does
not clear `speedingStartTimeRef`, and the truthiness guard skips the
finalization entirely when the stored start time is 0.  The average
speed and total distance are computed only for the backend payload and
do not feed back into the state. -/
def handleEndTrip (now : ℚ) (backend : Except String ℚ) (s : AppState) : AppState :=
  match s.tripId with
  | none => s
  | some _ =>
    let s0 := { s with errorMsg := none }
    match s0.lastLocation with
    | none => { s0 with errorMsg := some "Wait for location" }
    | some _ =>
      let s1 :=
        if s0.wasSpeeding && isTruthyTime s0.speedingStartTime then
          let dur := s0.speedingDuration + (now - s0.speedingStartTime.getD 0) / 1000
          { s0 with speedingDuration := dur, wasSpeeding := false }
        else s0
      match backend with
      | .error m => { s1 with errorMsg := some m }
      | .ok score =>
        { s1 with safetyScore := some score, status := .idle,
                  tripId := none, tripLocationBuffer := [],
                  harshEvents := [], autoStartInProgress := false }

/-! ## Event-level semantics -/

/-- One externally triggered event of the engine. -/
inductive Op where
  | loc (sample : Sample) (nowFallback : ℚ)
  | accel (x y z : ℚ)
  | sensorDecay
  | speedCheck (limitData : SpeedLimitInfo) (rawSpeed time : ℚ)
  | start (backend : Except String ℕ)
  | stop (now : ℚ) (backend : Except String ℚ)
deriving Repr

def applyOp (dist : ℚ → ℚ → ℚ → ℚ → ℚ) : Op → AppState → AppState
  | .loc sample nowFallback, s => processLocation dist nowFallback sample s
  | .accel x y z, s => processAccel x y z s
  | .sensorDecay, s => { s with sensorBasedCrash := false }
  | .speedCheck d v t, s => applySpeedCheck d v t s
  | .start backend, s => handleStartTrip backend s
  | .stop now backend, s => handleEndTrip now backend s

def runOps (dist : ℚ → ℚ → ℚ → ℚ → ℚ) : List Op → AppState → AppState
  | [], s => s
  | o :: rest, s => runOps dist rest (applyOp dist o s)

/-- Ops that can occur while a single trip stays active (no start/end). -/
def Op.isTripOp : Op → Bool
  | .loc _ _ => true
  | .accel _ _ _ => true
  | .sensorDecay => true
  | .speedCheck _ _ _ => true
  | .start _ => false
  | .stop _ _ => false

/-- The crash-flag trace along a run (initial state's flag included). -/
def crashTrace (dist : ℚ → ℚ → ℚ → ℚ → ℚ) : List Op → AppState → List Bool
  | [], s => [s.crashDetected]
  | o :: rest, s => s.crashDetected :: crashTrace dist rest (applyOp dist o s)

/-- Number of `false → true` transitions between adjacent trace entries. -/
def riseCount : List Bool → ℕ
  | [] => 0
  | [_] => 0
  | a :: b :: rest => (if a = false ∧ b = true then 1 else 0) + riseCount (b :: rest)

/-- Timestamps of the events of one kind in an event list, in append order. -/
def timesOfKind (kind : String) (evs : List HarshEvent) : List ℚ :=
  (evs.filter (fun e => e.kind = kind)).map HarshEvent.time

/-- Timestamps of the recorded harsh events of one kind, in append order. -/
def eventTimesOf (kind : String) (s : AppState) : List ℚ :=
  timesOfKind kind s.harshEvents

/-- All pairs (in list order) are at least 3000 ms apart. -/
def Sep3000 (l : List ℚ) : Prop := l.Pairwise (fun a b => b - a ≥ 3000)

/-- The harsh-event cooldown invariant on the event list together with
the two per-kind cooldown clocks: events of each kind are pairwise
≥ 3000 ms apart and all of them precede the stored last-counted time. -/
def harshInvE (evs : List HarshEvent) (lb la2 : ℚ) : Prop :=
  (Sep3000 (timesOfKind "braking" evs) ∧ ∀ u ∈ timesOfKind "braking" evs, u ≤ lb) ∧
  (Sep3000 (timesOfKind "acceleration" evs) ∧
    ∀ u ∈ timesOfKind "acceleration" evs, u ≤ la2)

/-- The cooldown invariant of a session state. -/
def harshInv (s : AppState) : Prop :=
  harshInvE s.harshEvents s.lastHarshBrakeTime s.lastHarshAccelTime

/-- The preconditions under which the displacement-derived speed is used
(the guards of lines 212–219 taken together). -/
def displacementSpeedOk (dist : ℚ → ℚ → ℚ → ℚ → ℚ) (prev : Option LastLoc)
    (latitude longitude time : ℚ) (accuracy : Option ℚ) : Prop :=
  match prev with
  | none => False
  | some p =>
    time - p.time ≥ 1500 ∧ (time - p.time) / 1000 / 3600 > 0 ∧
    dist p.lat p.lng latitude longitude ≥ 15 / 1000 ∧
    (accuracy.getD 999 ≤ 35 ∨ accuracy.getD 999 > 500)

/-- A distance function that reports a constant 30 m displacement
between any two points; used to instantiate the `dist` parameter at
concrete inputs. -/
def constDist : ℚ → ℚ → ℚ → ℚ → ℚ := fun _ _ _ _ => 30 / 1000

/-- An Active mid-trip session state with one recorded harsh brake. -/
def c1State : AppState :=
  { initState with
      status := .driving
      tripId := some 1
      lastLocation := some ⟨33, 35, 1000⟩
      harshBrakeCount := 3
      harshEvents := [⟨"braking", 1000, 33, 35, 40⟩] }

/-- The SpeedingState consistency invariant of the spec: the episode
start time is set iff the currently-speeding flag is true. -/
def speedingConsistent (s : AppState) : Prop :=
  s.wasSpeeding = true ↔ s.speedingStartTime ≠ none

/-- The forward half of the invariant: flag set implies start time set. -/
def speedingFlagImpliesStart (s : AppState) : Prop :=
  s.wasSpeeding = true → s.speedingStartTime ≠ none

/-- First sample of the C2 trace: a fix with device speed 0 that
establishes the last-known location while Idle. -/
def c2SampleA : Sample := ⟨some 33, some 35, some 1500000000000000, some 10, some 0⟩

/-- Second sample of the C2 trace: 20 s later, device speed 30 m/s
(108 km/h), which triggers the 10 s speed-check cadence. -/
def c2SampleB : Sample := ⟨some 33, some 35, some 1500000000020000, some 10, some 30⟩

/-- The C2 trace: get a fix, start trip 7, drive at 108 km/h (initiating
a speed-limit fetch), receive the resolver callback (limit 60, so a
speeding episode opens at the sample's time), then end the trip while
the episode is still open. -/
def c2Ops : List Op :=
  [.loc c2SampleA 0, .start (Except.ok 7), .loc c2SampleB 0,
   .speedCheck defaultInfo 108 1500000000020000,
   .stop 1500000000025000 (Except.ok 80)]

/-- An Idle state of the shape left behind by a trip-end that closed a
mid-flight speeding episode: the flag is already false but the episode
start time is still set (the inconsistent post-trip-end shape). -/
def c2PostEndState : AppState :=
  { initState with
      lastLocation := some ⟨33, 35, 1000⟩
      speedingStartTime := some 2000 }

/-- An Active state in the middle of a speeding episode. -/
def c2EndState : AppState :=
  { initState with
      tripId := some 7
      status := .driving
      lastLocation := some ⟨33, 35, 1000⟩
      wasSpeeding := true
      speedingStartTime := some 2000 }

/-- An Active state in which both crash signal flags are set but no
crash has been recorded yet. -/
def c8State : AppState :=
  { initState with
      tripId := some 3
      status := .driving
      lastLocation := some ⟨33, 35, 1500000000000000⟩
      speedBasedCrash := true
      sensorBasedCrash := true }

/-- A location sample 1 s after `c8State`'s fix with device speed 5 m/s. -/
def c8Sample : Sample := ⟨some 33, some 35, some 1500000000001000, some 10, some 5⟩

/-- An Active mid-trip session state with one previously counted speed
sample, whose last accepted fix is at epoch time 1 500 000 000 000 000 ms. -/
def c10State : AppState :=
  { initState with
      status := .driving
      tripId := some 5
      lastLocation := some ⟨33, 35, 1500000000000000⟩
      speedSum := 10
      speedCount := 1
      tripLocationBuffer := [⟨33, 35, 1500000000000000, 10⟩] }

/-! ## Cache lemmas -/

lemma cacheGet_set_self (c : List CacheEntry) (k : ℚ × ℚ) (d : SpeedLimitInfo) (ts : ℚ) :
    cacheGet (cacheSet c k d ts) k = some ⟨k, d, ts⟩ := by
  induction c with
  | nil => simp [cacheSet, cacheGet]
  | cons e rest ih =>
    by_cases h : e.key = k
    · simp [cacheSet, h, cacheGet]
    · simp [cacheSet, h, cacheGet, ih]

lemma cacheSet_of_get_none {c : List CacheEntry} {k : ℚ × ℚ} {d : SpeedLimitInfo} {ts : ℚ}
    (h : cacheGet c k = none) : cacheSet c k d ts = c ++ [⟨k, d, ts⟩] := by
  induction c with
  | nil => rfl
  | cons e rest ih =>
    by_cases hk : e.key = k
    · simp [cacheGet, hk] at h
    · simp only [cacheGet, if_neg hk] at h
      simp [cacheSet, hk, ih h]

lemma cacheSet_length_of_get_some {c : List CacheEntry} {k : ℚ × ℚ} {d : SpeedLimitInfo}
    {ts : ℚ} (h : (cacheGet c k).isSome) : (cacheSet c k d ts).length = c.length := by
  induction c with
  | nil => simp [cacheGet] at h
  | cons e rest ih =>
    by_cases hk : e.key = k
    · simp [cacheSet, hk]
    · simp only [cacheGet, if_neg hk] at h
      simp [cacheSet, hk, ih h]

lemma cacheGet_eq_none_iff {c : List CacheEntry} {k : ℚ × ℚ} :
    cacheGet c k = none ↔ ∀ e ∈ c, e.key ≠ k := by
  induction c with
  | nil => simp [cacheGet]
  | cons e rest ih =>
    by_cases hk : e.key = k
    · simp [cacheGet, hk]
    · simp [cacheGet, hk, ih]

lemma cacheGet_append_of_none {c : List CacheEntry} {k : ℚ × ℚ}
    (h : cacheGet c k = none) (l : List CacheEntry) :
    cacheGet (c ++ l) k = cacheGet l k := by
  induction c with
  | nil => rfl
  | cons e rest ih =>
    by_cases hk : e.key = k
    · simp [cacheGet, hk] at h
    · simp only [cacheGet, if_neg hk] at h
      simp [cacheGet, hk, ih h]

lemma cacheGet_drop_of_none {c : List CacheEntry} {k : ℚ × ℚ}
    (h : cacheGet c k = none) (n : ℕ) : cacheGet (c.drop n) k = none := by
  rw [cacheGet_eq_none_iff] at h ⊢
  exact fun e he => h e (List.mem_of_mem_drop he)

/-- After a cached-resolver call that issued an external query, the grid
cell's entry holds the query result stamped with that call's time. -/
lemma step_queried_get {q : SpeedLimitInfo} {now la lo : ℚ} {c : List CacheEntry}
    (h100 : c.length ≤ 100)
    (hq : (getSpeedLimitCachedStep q now la lo c).2.2 = true) :
    cacheGet (getSpeedLimitCachedStep q now la lo c).2.1 (cacheKey la lo) =
      some ⟨cacheKey la lo, q, now⟩ := by
  rcases hg : cacheGet c (cacheKey la lo) with _ | e
  · have hset := @cacheSet_of_get_none _ _ q now hg
    simp only [getSpeedLimitCachedStep, hg, hset]
    by_cases hlen : (c ++ [(⟨cacheKey la lo, q, now⟩ : CacheEntry)]).length > 100
    · have hcne : 1 ≤ c.length := by simp at hlen; omega
      rw [if_pos hlen, List.drop_append_of_le_length hcne,
        cacheGet_append_of_none (cacheGet_drop_of_none hg 1)]
      simp [cacheGet]
    · rw [if_neg hlen, cacheGet_append_of_none hg]
      simp [cacheGet]
  · by_cases hexp : now - e.timestamp < CACHE_DURATION_MS
    · simp [getSpeedLimitCachedStep, hg, hexp] at hq
    · have hlen : ¬ (cacheSet c (cacheKey la lo) q now).length > 100 := by
        rw [cacheSet_length_of_get_some (by simp [hg])]; omega
      simp only [getSpeedLimitCachedStep, hg, if_neg hexp, if_neg hlen]
      exact cacheGet_set_self ..

/-! ## Phase projection lemmas

Each phase of the location callback touches a small set of fields; the
lemmas below record, for every phase, the fields it leaves untouched. -/

@[simp] lemma speedPhase_status (r : ℚ) (s : AppState) :
    (speedPhase r s).status = s.status := by
  simp only [speedPhase]; split_ifs <;> rfl

@[simp] lemma speedPhase_safetyScore (r : ℚ) (s : AppState) :
    (speedPhase r s).safetyScore = s.safetyScore := by
  simp only [speedPhase]; split_ifs <;> rfl

@[simp] lemma speedPhase_errorMsg (r : ℚ) (s : AppState) :
    (speedPhase r s).errorMsg = s.errorMsg := by
  simp only [speedPhase]; split_ifs <;> rfl

@[simp] lemma speedPhase_tripId (r : ℚ) (s : AppState) :
    (speedPhase r s).tripId = s.tripId := by
  simp only [speedPhase]; split_ifs <;> rfl

@[simp] lemma speedPhase_lastLocation (r : ℚ) (s : AppState) :
    (speedPhase r s).lastLocation = s.lastLocation := by
  simp only [speedPhase]; split_ifs <;> rfl

@[simp] lemma speedPhase_tripLocationBuffer (r : ℚ) (s : AppState) :
    (speedPhase r s).tripLocationBuffer = s.tripLocationBuffer := by
  simp only [speedPhase]; split_ifs <;> rfl

@[simp] lemma speedPhase_lastHarshBrakeTime (r : ℚ) (s : AppState) :
    (speedPhase r s).lastHarshBrakeTime = s.lastHarshBrakeTime := by
  simp only [speedPhase]; split_ifs <;> rfl

@[simp] lemma speedPhase_lastHarshAccelTime (r : ℚ) (s : AppState) :
    (speedPhase r s).lastHarshAccelTime = s.lastHarshAccelTime := by
  simp only [speedPhase]; split_ifs <;> rfl

@[simp] lemma speedPhase_harshBrakeCount (r : ℚ) (s : AppState) :
    (speedPhase r s).harshBrakeCount = s.harshBrakeCount := by
  simp only [speedPhase]; split_ifs <;> rfl

@[simp] lemma speedPhase_harshAccelCount (r : ℚ) (s : AppState) :
    (speedPhase r s).harshAccelCount = s.harshAccelCount := by
  simp only [speedPhase]; split_ifs <;> rfl

@[simp] lemma speedPhase_harshEvents (r : ℚ) (s : AppState) :
    (speedPhase r s).harshEvents = s.harshEvents := by
  simp only [speedPhase]; split_ifs <;> rfl

@[simp] lemma speedPhase_accelMagSq (r : ℚ) (s : AppState) :
    (speedPhase r s).accelMagSq = s.accelMagSq := by
  simp only [speedPhase]; split_ifs <;> rfl

@[simp] lemma speedPhase_crashDetected (r : ℚ) (s : AppState) :
    (speedPhase r s).crashDetected = s.crashDetected := by
  simp only [speedPhase]; split_ifs <;> rfl

@[simp] lemma speedPhase_crashLat (r : ℚ) (s : AppState) :
    (speedPhase r s).crashLat = s.crashLat := by
  simp only [speedPhase]; split_ifs <;> rfl

@[simp] lemma speedPhase_crashLng (r : ℚ) (s : AppState) :
    (speedPhase r s).crashLng = s.crashLng := by
  simp only [speedPhase]; split_ifs <;> rfl

@[simp] lemma speedPhase_speedBasedCrash (r : ℚ) (s : AppState) :
    (speedPhase r s).speedBasedCrash = s.speedBasedCrash := by
  simp only [speedPhase]; split_ifs <;> rfl

@[simp] lemma speedPhase_sensorBasedCrash (r : ℚ) (s : AppState) :
    (speedPhase r s).sensorBasedCrash = s.sensorBasedCrash := by
  simp only [speedPhase]; split_ifs <;> rfl

@[simp] lemma speedPhase_speedingDuration (r : ℚ) (s : AppState) :
    (speedPhase r s).speedingDuration = s.speedingDuration := by
  simp only [speedPhase]; split_ifs <;> rfl

@[simp] lemma speedPhase_speedingViolations (r : ℚ) (s : AppState) :
    (speedPhase r s).speedingViolations = s.speedingViolations := by
  simp only [speedPhase]; split_ifs <;> rfl

@[simp] lemma speedPhase_maxSpeedOverLimit (r : ℚ) (s : AppState) :
    (speedPhase r s).maxSpeedOverLimit = s.maxSpeedOverLimit := by
  simp only [speedPhase]; split_ifs <;> rfl

@[simp] lemma speedPhase_lastSpeedCheckTime (r : ℚ) (s : AppState) :
    (speedPhase r s).lastSpeedCheckTime = s.lastSpeedCheckTime := by
  simp only [speedPhase]; split_ifs <;> rfl

@[simp] lemma speedPhase_currentSpeedLimit (r : ℚ) (s : AppState) :
    (speedPhase r s).currentSpeedLimit = s.currentSpeedLimit := by
  simp only [speedPhase]; split_ifs <;> rfl

@[simp] lemma speedPhase_wasSpeeding (r : ℚ) (s : AppState) :
    (speedPhase r s).wasSpeeding = s.wasSpeeding := by
  simp only [speedPhase]; split_ifs <;> rfl

@[simp] lemma speedPhase_speedingStartTime (r : ℚ) (s : AppState) :
    (speedPhase r s).speedingStartTime = s.speedingStartTime := by
  simp only [speedPhase]; split_ifs <;> rfl

@[simp] lemma speedPhase_recentSpeedSamples (r : ℚ) (s : AppState) :
    (speedPhase r s).recentSpeedSamples = s.recentSpeedSamples := by
  simp only [speedPhase]; split_ifs <;> rfl

@[simp] lemma speedPhase_autoStartInProgress (r : ℚ) (s : AppState) :
    (speedPhase r s).autoStartInProgress = s.autoStartInProgress := by
  simp only [speedPhase]; split_ifs <;> rfl

@[simp] lemma speedPhase_isStartingTrip (r : ℚ) (s : AppState) :
    (speedPhase r s).isStartingTrip = s.isStartingTrip := by
  simp only [speedPhase]; split_ifs <;> rfl

@[simp] lemma refUpdatePhase_status (dist : ℚ → ℚ → ℚ → ℚ → ℚ) (la lo t : ℚ) (s : AppState) :
    (refUpdatePhase dist la lo t s).status = s.status := by
  simp only [refUpdatePhase]; split_ifs <;> rfl

@[simp] lemma refUpdatePhase_speedKmh (dist : ℚ → ℚ → ℚ → ℚ → ℚ) (la lo t : ℚ) (s : AppState) :
    (refUpdatePhase dist la lo t s).speedKmh = s.speedKmh := by
  simp only [refUpdatePhase]; split_ifs <;> rfl

@[simp] lemma refUpdatePhase_safetyScore (dist : ℚ → ℚ → ℚ → ℚ → ℚ) (la lo t : ℚ) (s : AppState) :
    (refUpdatePhase dist la lo t s).safetyScore = s.safetyScore := by
  simp only [refUpdatePhase]; split_ifs <;> rfl

@[simp] lemma refUpdatePhase_errorMsg (dist : ℚ → ℚ → ℚ → ℚ → ℚ) (la lo t : ℚ) (s : AppState) :
    (refUpdatePhase dist la lo t s).errorMsg = s.errorMsg := by
  simp only [refUpdatePhase]; split_ifs <;> rfl

@[simp] lemma refUpdatePhase_tripId (dist : ℚ → ℚ → ℚ → ℚ → ℚ) (la lo t : ℚ) (s : AppState) :
    (refUpdatePhase dist la lo t s).tripId = s.tripId := by
  simp only [refUpdatePhase]; split_ifs <;> rfl

@[simp] lemma refUpdatePhase_speedSum (dist : ℚ → ℚ → ℚ → ℚ → ℚ) (la lo t : ℚ) (s : AppState) :
    (refUpdatePhase dist la lo t s).speedSum = s.speedSum := by
  simp only [refUpdatePhase]; split_ifs <;> rfl

@[simp] lemma refUpdatePhase_speedCount (dist : ℚ → ℚ → ℚ → ℚ → ℚ) (la lo t : ℚ) (s : AppState) :
    (refUpdatePhase dist la lo t s).speedCount = s.speedCount := by
  simp only [refUpdatePhase]; split_ifs <;> rfl

@[simp] lemma refUpdatePhase_tripLocationBuffer (dist : ℚ → ℚ → ℚ → ℚ → ℚ) (la lo t : ℚ) (s : AppState) :
    (refUpdatePhase dist la lo t s).tripLocationBuffer = s.tripLocationBuffer := by
  simp only [refUpdatePhase]; split_ifs <;> rfl

@[simp] lemma refUpdatePhase_lastHarshBrakeTime (dist : ℚ → ℚ → ℚ → ℚ → ℚ) (la lo t : ℚ) (s : AppState) :
    (refUpdatePhase dist la lo t s).lastHarshBrakeTime = s.lastHarshBrakeTime := by
  simp only [refUpdatePhase]; split_ifs <;> rfl

@[simp] lemma refUpdatePhase_lastHarshAccelTime (dist : ℚ → ℚ → ℚ → ℚ → ℚ) (la lo t : ℚ) (s : AppState) :
    (refUpdatePhase dist la lo t s).lastHarshAccelTime = s.lastHarshAccelTime := by
  simp only [refUpdatePhase]; split_ifs <;> rfl

@[simp] lemma refUpdatePhase_harshBrakeCount (dist : ℚ → ℚ → ℚ → ℚ → ℚ) (la lo t : ℚ) (s : AppState) :
    (refUpdatePhase dist la lo t s).harshBrakeCount = s.harshBrakeCount := by
  simp only [refUpdatePhase]; split_ifs <;> rfl

@[simp] lemma refUpdatePhase_harshAccelCount (dist : ℚ → ℚ → ℚ → ℚ → ℚ) (la lo t : ℚ) (s : AppState) :
    (refUpdatePhase dist la lo t s).harshAccelCount = s.harshAccelCount := by
  simp only [refUpdatePhase]; split_ifs <;> rfl

@[simp] lemma refUpdatePhase_harshEvents (dist : ℚ → ℚ → ℚ → ℚ → ℚ) (la lo t : ℚ) (s : AppState) :
    (refUpdatePhase dist la lo t s).harshEvents = s.harshEvents := by
  simp only [refUpdatePhase]; split_ifs <;> rfl

@[simp] lemma refUpdatePhase_accelMagSq (dist : ℚ → ℚ → ℚ → ℚ → ℚ) (la lo t : ℚ) (s : AppState) :
    (refUpdatePhase dist la lo t s).accelMagSq = s.accelMagSq := by
  simp only [refUpdatePhase]; split_ifs <;> rfl

@[simp] lemma refUpdatePhase_crashDetected (dist : ℚ → ℚ → ℚ → ℚ → ℚ) (la lo t : ℚ) (s : AppState) :
    (refUpdatePhase dist la lo t s).crashDetected = s.crashDetected := by
  simp only [refUpdatePhase]; split_ifs <;> rfl

@[simp] lemma refUpdatePhase_crashLat (dist : ℚ → ℚ → ℚ → ℚ → ℚ) (la lo t : ℚ) (s : AppState) :
    (refUpdatePhase dist la lo t s).crashLat = s.crashLat := by
  simp only [refUpdatePhase]; split_ifs <;> rfl

@[simp] lemma refUpdatePhase_crashLng (dist : ℚ → ℚ → ℚ → ℚ → ℚ) (la lo t : ℚ) (s : AppState) :
    (refUpdatePhase dist la lo t s).crashLng = s.crashLng := by
  simp only [refUpdatePhase]; split_ifs <;> rfl

@[simp] lemma refUpdatePhase_speedBasedCrash (dist : ℚ → ℚ → ℚ → ℚ → ℚ) (la lo t : ℚ) (s : AppState) :
    (refUpdatePhase dist la lo t s).speedBasedCrash = s.speedBasedCrash := by
  simp only [refUpdatePhase]; split_ifs <;> rfl

@[simp] lemma refUpdatePhase_sensorBasedCrash (dist : ℚ → ℚ → ℚ → ℚ → ℚ) (la lo t : ℚ) (s : AppState) :
    (refUpdatePhase dist la lo t s).sensorBasedCrash = s.sensorBasedCrash := by
  simp only [refUpdatePhase]; split_ifs <;> rfl

@[simp] lemma refUpdatePhase_speedingDuration (dist : ℚ → ℚ → ℚ → ℚ → ℚ) (la lo t : ℚ) (s : AppState) :
    (refUpdatePhase dist la lo t s).speedingDuration = s.speedingDuration := by
  simp only [refUpdatePhase]; split_ifs <;> rfl

@[simp] lemma refUpdatePhase_speedingViolations (dist : ℚ → ℚ → ℚ → ℚ → ℚ) (la lo t : ℚ) (s : AppState) :
    (refUpdatePhase dist la lo t s).speedingViolations = s.speedingViolations := by
  simp only [refUpdatePhase]; split_ifs <;> rfl

@[simp] lemma refUpdatePhase_maxSpeedOverLimit (dist : ℚ → ℚ → ℚ → ℚ → ℚ) (la lo t : ℚ) (s : AppState) :
    (refUpdatePhase dist la lo t s).maxSpeedOverLimit = s.maxSpeedOverLimit := by
  simp only [refUpdatePhase]; split_ifs <;> rfl

@[simp] lemma refUpdatePhase_lastSpeedCheckTime (dist : ℚ → ℚ → ℚ → ℚ → ℚ) (la lo t : ℚ) (s : AppState) :
    (refUpdatePhase dist la lo t s).lastSpeedCheckTime = s.lastSpeedCheckTime := by
  simp only [refUpdatePhase]; split_ifs <;> rfl

@[simp] lemma refUpdatePhase_currentSpeedLimit (dist : ℚ → ℚ → ℚ → ℚ → ℚ) (la lo t : ℚ) (s : AppState) :
    (refUpdatePhase dist la lo t s).currentSpeedLimit = s.currentSpeedLimit := by
  simp only [refUpdatePhase]; split_ifs <;> rfl

@[simp] lemma refUpdatePhase_wasSpeeding (dist : ℚ → ℚ → ℚ → ℚ → ℚ) (la lo t : ℚ) (s : AppState) :
    (refUpdatePhase dist la lo t s).wasSpeeding = s.wasSpeeding := by
  simp only [refUpdatePhase]; split_ifs <;> rfl

@[simp] lemma refUpdatePhase_speedingStartTime (dist : ℚ → ℚ → ℚ → ℚ → ℚ) (la lo t : ℚ) (s : AppState) :
    (refUpdatePhase dist la lo t s).speedingStartTime = s.speedingStartTime := by
  simp only [refUpdatePhase]; split_ifs <;> rfl

@[simp] lemma refUpdatePhase_smoothedSpeed (dist : ℚ → ℚ → ℚ → ℚ → ℚ) (la lo t : ℚ) (s : AppState) :
    (refUpdatePhase dist la lo t s).smoothedSpeed = s.smoothedSpeed := by
  simp only [refUpdatePhase]; split_ifs <;> rfl

@[simp] lemma refUpdatePhase_recentSpeedSamples (dist : ℚ → ℚ → ℚ → ℚ → ℚ) (la lo t : ℚ) (s : AppState) :
    (refUpdatePhase dist la lo t s).recentSpeedSamples = s.recentSpeedSamples := by
  simp only [refUpdatePhase]; split_ifs <;> rfl

@[simp] lemma refUpdatePhase_autoStartInProgress (dist : ℚ → ℚ → ℚ → ℚ → ℚ) (la lo t : ℚ) (s : AppState) :
    (refUpdatePhase dist la lo t s).autoStartInProgress = s.autoStartInProgress := by
  simp only [refUpdatePhase]; split_ifs <;> rfl

@[simp] lemma refUpdatePhase_isStartingTrip (dist : ℚ → ℚ → ℚ → ℚ → ℚ) (la lo t : ℚ) (s : AppState) :
    (refUpdatePhase dist la lo t s).isStartingTrip = s.isStartingTrip := by
  simp only [refUpdatePhase]; split_ifs <;> rfl

@[simp] lemma autoStartPhase_status (r t : ℚ) (s : AppState) :
    (autoStartPhase r t s).status = s.status := by
  simp only [autoStartPhase]; split_ifs <;> rfl

@[simp] lemma autoStartPhase_speedKmh (r t : ℚ) (s : AppState) :
    (autoStartPhase r t s).speedKmh = s.speedKmh := by
  simp only [autoStartPhase]; split_ifs <;> rfl

@[simp] lemma autoStartPhase_safetyScore (r t : ℚ) (s : AppState) :
    (autoStartPhase r t s).safetyScore = s.safetyScore := by
  simp only [autoStartPhase]; split_ifs <;> rfl

@[simp] lemma autoStartPhase_errorMsg (r t : ℚ) (s : AppState) :
    (autoStartPhase r t s).errorMsg = s.errorMsg := by
  simp only [autoStartPhase]; split_ifs <;> rfl

@[simp] lemma autoStartPhase_tripId (r t : ℚ) (s : AppState) :
    (autoStartPhase r t s).tripId = s.tripId := by
  simp only [autoStartPhase]; split_ifs <;> rfl

@[simp] lemma autoStartPhase_lastLocation (r t : ℚ) (s : AppState) :
    (autoStartPhase r t s).lastLocation = s.lastLocation := by
  simp only [autoStartPhase]; split_ifs <;> rfl

@[simp] lemma autoStartPhase_speedSum (r t : ℚ) (s : AppState) :
    (autoStartPhase r t s).speedSum = s.speedSum := by
  simp only [autoStartPhase]; split_ifs <;> rfl

@[simp] lemma autoStartPhase_speedCount (r t : ℚ) (s : AppState) :
    (autoStartPhase r t s).speedCount = s.speedCount := by
  simp only [autoStartPhase]; split_ifs <;> rfl

@[simp] lemma autoStartPhase_tripLocationBuffer (r t : ℚ) (s : AppState) :
    (autoStartPhase r t s).tripLocationBuffer = s.tripLocationBuffer := by
  simp only [autoStartPhase]; split_ifs <;> rfl

@[simp] lemma autoStartPhase_lastHarshBrakeTime (r t : ℚ) (s : AppState) :
    (autoStartPhase r t s).lastHarshBrakeTime = s.lastHarshBrakeTime := by
  simp only [autoStartPhase]; split_ifs <;> rfl

@[simp] lemma autoStartPhase_lastHarshAccelTime (r t : ℚ) (s : AppState) :
    (autoStartPhase r t s).lastHarshAccelTime = s.lastHarshAccelTime := by
  simp only [autoStartPhase]; split_ifs <;> rfl

@[simp] lemma autoStartPhase_harshBrakeCount (r t : ℚ) (s : AppState) :
    (autoStartPhase r t s).harshBrakeCount = s.harshBrakeCount := by
  simp only [autoStartPhase]; split_ifs <;> rfl

@[simp] lemma autoStartPhase_harshAccelCount (r t : ℚ) (s : AppState) :
    (autoStartPhase r t s).harshAccelCount = s.harshAccelCount := by
  simp only [autoStartPhase]; split_ifs <;> rfl

@[simp] lemma autoStartPhase_harshEvents (r t : ℚ) (s : AppState) :
    (autoStartPhase r t s).harshEvents = s.harshEvents := by
  simp only [autoStartPhase]; split_ifs <;> rfl

@[simp] lemma autoStartPhase_accelMagSq (r t : ℚ) (s : AppState) :
    (autoStartPhase r t s).accelMagSq = s.accelMagSq := by
  simp only [autoStartPhase]; split_ifs <;> rfl

@[simp] lemma autoStartPhase_crashDetected (r t : ℚ) (s : AppState) :
    (autoStartPhase r t s).crashDetected = s.crashDetected := by
  simp only [autoStartPhase]; split_ifs <;> rfl

@[simp] lemma autoStartPhase_crashLat (r t : ℚ) (s : AppState) :
    (autoStartPhase r t s).crashLat = s.crashLat := by
  simp only [autoStartPhase]; split_ifs <;> rfl

@[simp] lemma autoStartPhase_crashLng (r t : ℚ) (s : AppState) :
    (autoStartPhase r t s).crashLng = s.crashLng := by
  simp only [autoStartPhase]; split_ifs <;> rfl

@[simp] lemma autoStartPhase_speedBasedCrash (r t : ℚ) (s : AppState) :
    (autoStartPhase r t s).speedBasedCrash = s.speedBasedCrash := by
  simp only [autoStartPhase]; split_ifs <;> rfl

@[simp] lemma autoStartPhase_sensorBasedCrash (r t : ℚ) (s : AppState) :
    (autoStartPhase r t s).sensorBasedCrash = s.sensorBasedCrash := by
  simp only [autoStartPhase]; split_ifs <;> rfl

@[simp] lemma autoStartPhase_speedingDuration (r t : ℚ) (s : AppState) :
    (autoStartPhase r t s).speedingDuration = s.speedingDuration := by
  simp only [autoStartPhase]; split_ifs <;> rfl

@[simp] lemma autoStartPhase_speedingViolations (r t : ℚ) (s : AppState) :
    (autoStartPhase r t s).speedingViolations = s.speedingViolations := by
  simp only [autoStartPhase]; split_ifs <;> rfl

@[simp] lemma autoStartPhase_maxSpeedOverLimit (r t : ℚ) (s : AppState) :
    (autoStartPhase r t s).maxSpeedOverLimit = s.maxSpeedOverLimit := by
  simp only [autoStartPhase]; split_ifs <;> rfl

@[simp] lemma autoStartPhase_lastSpeedCheckTime (r t : ℚ) (s : AppState) :
    (autoStartPhase r t s).lastSpeedCheckTime = s.lastSpeedCheckTime := by
  simp only [autoStartPhase]; split_ifs <;> rfl

@[simp] lemma autoStartPhase_currentSpeedLimit (r t : ℚ) (s : AppState) :
    (autoStartPhase r t s).currentSpeedLimit = s.currentSpeedLimit := by
  simp only [autoStartPhase]; split_ifs <;> rfl

@[simp] lemma autoStartPhase_wasSpeeding (r t : ℚ) (s : AppState) :
    (autoStartPhase r t s).wasSpeeding = s.wasSpeeding := by
  simp only [autoStartPhase]; split_ifs <;> rfl

@[simp] lemma autoStartPhase_speedingStartTime (r t : ℚ) (s : AppState) :
    (autoStartPhase r t s).speedingStartTime = s.speedingStartTime := by
  simp only [autoStartPhase]; split_ifs <;> rfl

@[simp] lemma autoStartPhase_smoothedSpeed (r t : ℚ) (s : AppState) :
    (autoStartPhase r t s).smoothedSpeed = s.smoothedSpeed := by
  simp only [autoStartPhase]; split_ifs <;> rfl

@[simp] lemma autoStartPhase_isStartingTrip (r t : ℚ) (s : AppState) :
    (autoStartPhase r t s).isStartingTrip = s.isStartingTrip := by
  simp only [autoStartPhase]; split_ifs <;> rfl

@[simp] lemma harshPhase_status (la lo t pt rs ps : ℚ) (acc : Option ℚ) (s : AppState) :
    (harshPhase la lo t pt rs ps acc s).status = s.status := by
  simp only [harshPhase, brakeUpdate, accelUpdate]; split_ifs <;> rfl

@[simp] lemma harshPhase_speedKmh (la lo t pt rs ps : ℚ) (acc : Option ℚ) (s : AppState) :
    (harshPhase la lo t pt rs ps acc s).speedKmh = s.speedKmh := by
  simp only [harshPhase, brakeUpdate, accelUpdate]; split_ifs <;> rfl

@[simp] lemma harshPhase_safetyScore (la lo t pt rs ps : ℚ) (acc : Option ℚ) (s : AppState) :
    (harshPhase la lo t pt rs ps acc s).safetyScore = s.safetyScore := by
  simp only [harshPhase, brakeUpdate, accelUpdate]; split_ifs <;> rfl

@[simp] lemma harshPhase_errorMsg (la lo t pt rs ps : ℚ) (acc : Option ℚ) (s : AppState) :
    (harshPhase la lo t pt rs ps acc s).errorMsg = s.errorMsg := by
  simp only [harshPhase, brakeUpdate, accelUpdate]; split_ifs <;> rfl

@[simp] lemma harshPhase_tripId (la lo t pt rs ps : ℚ) (acc : Option ℚ) (s : AppState) :
    (harshPhase la lo t pt rs ps acc s).tripId = s.tripId := by
  simp only [harshPhase, brakeUpdate, accelUpdate]; split_ifs <;> rfl

@[simp] lemma harshPhase_lastLocation (la lo t pt rs ps : ℚ) (acc : Option ℚ) (s : AppState) :
    (harshPhase la lo t pt rs ps acc s).lastLocation = s.lastLocation := by
  simp only [harshPhase, brakeUpdate, accelUpdate]; split_ifs <;> rfl

@[simp] lemma harshPhase_speedSum (la lo t pt rs ps : ℚ) (acc : Option ℚ) (s : AppState) :
    (harshPhase la lo t pt rs ps acc s).speedSum = s.speedSum := by
  simp only [harshPhase, brakeUpdate, accelUpdate]; split_ifs <;> rfl

@[simp] lemma harshPhase_speedCount (la lo t pt rs ps : ℚ) (acc : Option ℚ) (s : AppState) :
    (harshPhase la lo t pt rs ps acc s).speedCount = s.speedCount := by
  simp only [harshPhase, brakeUpdate, accelUpdate]; split_ifs <;> rfl

@[simp] lemma harshPhase_tripLocationBuffer (la lo t pt rs ps : ℚ) (acc : Option ℚ) (s : AppState) :
    (harshPhase la lo t pt rs ps acc s).tripLocationBuffer = s.tripLocationBuffer := by
  simp only [harshPhase, brakeUpdate, accelUpdate]; split_ifs <;> rfl

@[simp] lemma harshPhase_accelMagSq (la lo t pt rs ps : ℚ) (acc : Option ℚ) (s : AppState) :
    (harshPhase la lo t pt rs ps acc s).accelMagSq = s.accelMagSq := by
  simp only [harshPhase, brakeUpdate, accelUpdate]; split_ifs <;> rfl

@[simp] lemma harshPhase_crashDetected (la lo t pt rs ps : ℚ) (acc : Option ℚ) (s : AppState) :
    (harshPhase la lo t pt rs ps acc s).crashDetected = s.crashDetected := by
  simp only [harshPhase, brakeUpdate, accelUpdate]; split_ifs <;> rfl

@[simp] lemma harshPhase_crashLat (la lo t pt rs ps : ℚ) (acc : Option ℚ) (s : AppState) :
    (harshPhase la lo t pt rs ps acc s).crashLat = s.crashLat := by
  simp only [harshPhase, brakeUpdate, accelUpdate]; split_ifs <;> rfl

@[simp] lemma harshPhase_crashLng (la lo t pt rs ps : ℚ) (acc : Option ℚ) (s : AppState) :
    (harshPhase la lo t pt rs ps acc s).crashLng = s.crashLng := by
  simp only [harshPhase, brakeUpdate, accelUpdate]; split_ifs <;> rfl

@[simp] lemma harshPhase_sensorBasedCrash (la lo t pt rs ps : ℚ) (acc : Option ℚ) (s : AppState) :
    (harshPhase la lo t pt rs ps acc s).sensorBasedCrash = s.sensorBasedCrash := by
  simp only [harshPhase, brakeUpdate, accelUpdate]; split_ifs <;> rfl

@[simp] lemma harshPhase_speedingDuration (la lo t pt rs ps : ℚ) (acc : Option ℚ) (s : AppState) :
    (harshPhase la lo t pt rs ps acc s).speedingDuration = s.speedingDuration := by
  simp only [harshPhase, brakeUpdate, accelUpdate]; split_ifs <;> rfl

@[simp] lemma harshPhase_speedingViolations (la lo t pt rs ps : ℚ) (acc : Option ℚ) (s : AppState) :
    (harshPhase la lo t pt rs ps acc s).speedingViolations = s.speedingViolations := by
  simp only [harshPhase, brakeUpdate, accelUpdate]; split_ifs <;> rfl

@[simp] lemma harshPhase_maxSpeedOverLimit (la lo t pt rs ps : ℚ) (acc : Option ℚ) (s : AppState) :
    (harshPhase la lo t pt rs ps acc s).maxSpeedOverLimit = s.maxSpeedOverLimit := by
  simp only [harshPhase, brakeUpdate, accelUpdate]; split_ifs <;> rfl

@[simp] lemma harshPhase_lastSpeedCheckTime (la lo t pt rs ps : ℚ) (acc : Option ℚ) (s : AppState) :
    (harshPhase la lo t pt rs ps acc s).lastSpeedCheckTime = s.lastSpeedCheckTime := by
  simp only [harshPhase, brakeUpdate, accelUpdate]; split_ifs <;> rfl

@[simp] lemma harshPhase_currentSpeedLimit (la lo t pt rs ps : ℚ) (acc : Option ℚ) (s : AppState) :
    (harshPhase la lo t pt rs ps acc s).currentSpeedLimit = s.currentSpeedLimit := by
  simp only [harshPhase, brakeUpdate, accelUpdate]; split_ifs <;> rfl

@[simp] lemma harshPhase_wasSpeeding (la lo t pt rs ps : ℚ) (acc : Option ℚ) (s : AppState) :
    (harshPhase la lo t pt rs ps acc s).wasSpeeding = s.wasSpeeding := by
  simp only [harshPhase, brakeUpdate, accelUpdate]; split_ifs <;> rfl

@[simp] lemma harshPhase_speedingStartTime (la lo t pt rs ps : ℚ) (acc : Option ℚ) (s : AppState) :
    (harshPhase la lo t pt rs ps acc s).speedingStartTime = s.speedingStartTime := by
  simp only [harshPhase, brakeUpdate, accelUpdate]; split_ifs <;> rfl

@[simp] lemma harshPhase_smoothedSpeed (la lo t pt rs ps : ℚ) (acc : Option ℚ) (s : AppState) :
    (harshPhase la lo t pt rs ps acc s).smoothedSpeed = s.smoothedSpeed := by
  simp only [harshPhase, brakeUpdate, accelUpdate]; split_ifs <;> rfl

@[simp] lemma harshPhase_recentSpeedSamples (la lo t pt rs ps : ℚ) (acc : Option ℚ) (s : AppState) :
    (harshPhase la lo t pt rs ps acc s).recentSpeedSamples = s.recentSpeedSamples := by
  simp only [harshPhase, brakeUpdate, accelUpdate]; split_ifs <;> rfl

@[simp] lemma harshPhase_autoStartInProgress (la lo t pt rs ps : ℚ) (acc : Option ℚ) (s : AppState) :
    (harshPhase la lo t pt rs ps acc s).autoStartInProgress = s.autoStartInProgress := by
  simp only [harshPhase, brakeUpdate, accelUpdate]; split_ifs <;> rfl

@[simp] lemma harshPhase_isStartingTrip (la lo t pt rs ps : ℚ) (acc : Option ℚ) (s : AppState) :
    (harshPhase la lo t pt rs ps acc s).isStartingTrip = s.isStartingTrip := by
  simp only [harshPhase, brakeUpdate, accelUpdate]; split_ifs <;> rfl

@[simp] lemma crashFusePhase_status (la lo : ℚ) (s : AppState) :
    (crashFusePhase la lo s).status = s.status := by
  simp only [crashFusePhase]; split_ifs <;> rfl

@[simp] lemma crashFusePhase_speedKmh (la lo : ℚ) (s : AppState) :
    (crashFusePhase la lo s).speedKmh = s.speedKmh := by
  simp only [crashFusePhase]; split_ifs <;> rfl

@[simp] lemma crashFusePhase_safetyScore (la lo : ℚ) (s : AppState) :
    (crashFusePhase la lo s).safetyScore = s.safetyScore := by
  simp only [crashFusePhase]; split_ifs <;> rfl

@[simp] lemma crashFusePhase_errorMsg (la lo : ℚ) (s : AppState) :
    (crashFusePhase la lo s).errorMsg = s.errorMsg := by
  simp only [crashFusePhase]; split_ifs <;> rfl

@[simp] lemma crashFusePhase_tripId (la lo : ℚ) (s : AppState) :
    (crashFusePhase la lo s).tripId = s.tripId := by
  simp only [crashFusePhase]; split_ifs <;> rfl

@[simp] lemma crashFusePhase_lastLocation (la lo : ℚ) (s : AppState) :
    (crashFusePhase la lo s).lastLocation = s.lastLocation := by
  simp only [crashFusePhase]; split_ifs <;> rfl

@[simp] lemma crashFusePhase_speedSum (la lo : ℚ) (s : AppState) :
    (crashFusePhase la lo s).speedSum = s.speedSum := by
  simp only [crashFusePhase]; split_ifs <;> rfl

@[simp] lemma crashFusePhase_speedCount (la lo : ℚ) (s : AppState) :
    (crashFusePhase la lo s).speedCount = s.speedCount := by
  simp only [crashFusePhase]; split_ifs <;> rfl

@[simp] lemma crashFusePhase_tripLocationBuffer (la lo : ℚ) (s : AppState) :
    (crashFusePhase la lo s).tripLocationBuffer = s.tripLocationBuffer := by
  simp only [crashFusePhase]; split_ifs <;> rfl

@[simp] lemma crashFusePhase_lastHarshBrakeTime (la lo : ℚ) (s : AppState) :
    (crashFusePhase la lo s).lastHarshBrakeTime = s.lastHarshBrakeTime := by
  simp only [crashFusePhase]; split_ifs <;> rfl

@[simp] lemma crashFusePhase_lastHarshAccelTime (la lo : ℚ) (s : AppState) :
    (crashFusePhase la lo s).lastHarshAccelTime = s.lastHarshAccelTime := by
  simp only [crashFusePhase]; split_ifs <;> rfl

@[simp] lemma crashFusePhase_harshBrakeCount (la lo : ℚ) (s : AppState) :
    (crashFusePhase la lo s).harshBrakeCount = s.harshBrakeCount := by
  simp only [crashFusePhase]; split_ifs <;> rfl

@[simp] lemma crashFusePhase_harshAccelCount (la lo : ℚ) (s : AppState) :
    (crashFusePhase la lo s).harshAccelCount = s.harshAccelCount := by
  simp only [crashFusePhase]; split_ifs <;> rfl

@[simp] lemma crashFusePhase_harshEvents (la lo : ℚ) (s : AppState) :
    (crashFusePhase la lo s).harshEvents = s.harshEvents := by
  simp only [crashFusePhase]; split_ifs <;> rfl

@[simp] lemma crashFusePhase_accelMagSq (la lo : ℚ) (s : AppState) :
    (crashFusePhase la lo s).accelMagSq = s.accelMagSq := by
  simp only [crashFusePhase]; split_ifs <;> rfl

@[simp] lemma crashFusePhase_speedingDuration (la lo : ℚ) (s : AppState) :
    (crashFusePhase la lo s).speedingDuration = s.speedingDuration := by
  simp only [crashFusePhase]; split_ifs <;> rfl

@[simp] lemma crashFusePhase_speedingViolations (la lo : ℚ) (s : AppState) :
    (crashFusePhase la lo s).speedingViolations = s.speedingViolations := by
  simp only [crashFusePhase]; split_ifs <;> rfl

@[simp] lemma crashFusePhase_maxSpeedOverLimit (la lo : ℚ) (s : AppState) :
    (crashFusePhase la lo s).maxSpeedOverLimit = s.maxSpeedOverLimit := by
  simp only [crashFusePhase]; split_ifs <;> rfl

@[simp] lemma crashFusePhase_lastSpeedCheckTime (la lo : ℚ) (s : AppState) :
    (crashFusePhase la lo s).lastSpeedCheckTime = s.lastSpeedCheckTime := by
  simp only [crashFusePhase]; split_ifs <;> rfl

@[simp] lemma crashFusePhase_currentSpeedLimit (la lo : ℚ) (s : AppState) :
    (crashFusePhase la lo s).currentSpeedLimit = s.currentSpeedLimit := by
  simp only [crashFusePhase]; split_ifs <;> rfl

@[simp] lemma crashFusePhase_wasSpeeding (la lo : ℚ) (s : AppState) :
    (crashFusePhase la lo s).wasSpeeding = s.wasSpeeding := by
  simp only [crashFusePhase]; split_ifs <;> rfl

@[simp] lemma crashFusePhase_speedingStartTime (la lo : ℚ) (s : AppState) :
    (crashFusePhase la lo s).speedingStartTime = s.speedingStartTime := by
  simp only [crashFusePhase]; split_ifs <;> rfl

@[simp] lemma crashFusePhase_smoothedSpeed (la lo : ℚ) (s : AppState) :
    (crashFusePhase la lo s).smoothedSpeed = s.smoothedSpeed := by
  simp only [crashFusePhase]; split_ifs <;> rfl

@[simp] lemma crashFusePhase_recentSpeedSamples (la lo : ℚ) (s : AppState) :
    (crashFusePhase la lo s).recentSpeedSamples = s.recentSpeedSamples := by
  simp only [crashFusePhase]; split_ifs <;> rfl

@[simp] lemma crashFusePhase_autoStartInProgress (la lo : ℚ) (s : AppState) :
    (crashFusePhase la lo s).autoStartInProgress = s.autoStartInProgress := by
  simp only [crashFusePhase]; split_ifs <;> rfl

@[simp] lemma crashFusePhase_isStartingTrip (la lo : ℚ) (s : AppState) :
    (crashFusePhase la lo s).isStartingTrip = s.isStartingTrip := by
  simp only [crashFusePhase]; split_ifs <;> rfl

@[simp] lemma cadencePhase_status (t : ℚ) (s : AppState) :
    (cadencePhase t s).status = s.status := by
  simp only [cadencePhase]; split_ifs <;> rfl

@[simp] lemma cadencePhase_speedKmh (t : ℚ) (s : AppState) :
    (cadencePhase t s).speedKmh = s.speedKmh := by
  simp only [cadencePhase]; split_ifs <;> rfl

@[simp] lemma cadencePhase_safetyScore (t : ℚ) (s : AppState) :
    (cadencePhase t s).safetyScore = s.safetyScore := by
  simp only [cadencePhase]; split_ifs <;> rfl

@[simp] lemma cadencePhase_errorMsg (t : ℚ) (s : AppState) :
    (cadencePhase t s).errorMsg = s.errorMsg := by
  simp only [cadencePhase]; split_ifs <;> rfl

@[simp] lemma cadencePhase_tripId (t : ℚ) (s : AppState) :
    (cadencePhase t s).tripId = s.tripId := by
  simp only [cadencePhase]; split_ifs <;> rfl

@[simp] lemma cadencePhase_lastLocation (t : ℚ) (s : AppState) :
    (cadencePhase t s).lastLocation = s.lastLocation := by
  simp only [cadencePhase]; split_ifs <;> rfl

@[simp] lemma cadencePhase_speedSum (t : ℚ) (s : AppState) :
    (cadencePhase t s).speedSum = s.speedSum := by
  simp only [cadencePhase]; split_ifs <;> rfl

@[simp] lemma cadencePhase_speedCount (t : ℚ) (s : AppState) :
    (cadencePhase t s).speedCount = s.speedCount := by
  simp only [cadencePhase]; split_ifs <;> rfl

@[simp] lemma cadencePhase_tripLocationBuffer (t : ℚ) (s : AppState) :
    (cadencePhase t s).tripLocationBuffer = s.tripLocationBuffer := by
  simp only [cadencePhase]; split_ifs <;> rfl

@[simp] lemma cadencePhase_lastHarshBrakeTime (t : ℚ) (s : AppState) :
    (cadencePhase t s).lastHarshBrakeTime = s.lastHarshBrakeTime := by
  simp only [cadencePhase]; split_ifs <;> rfl

@[simp] lemma cadencePhase_lastHarshAccelTime (t : ℚ) (s : AppState) :
    (cadencePhase t s).lastHarshAccelTime = s.lastHarshAccelTime := by
  simp only [cadencePhase]; split_ifs <;> rfl

@[simp] lemma cadencePhase_harshBrakeCount (t : ℚ) (s : AppState) :
    (cadencePhase t s).harshBrakeCount = s.harshBrakeCount := by
  simp only [cadencePhase]; split_ifs <;> rfl

@[simp] lemma cadencePhase_harshAccelCount (t : ℚ) (s : AppState) :
    (cadencePhase t s).harshAccelCount = s.harshAccelCount := by
  simp only [cadencePhase]; split_ifs <;> rfl

@[simp] lemma cadencePhase_harshEvents (t : ℚ) (s : AppState) :
    (cadencePhase t s).harshEvents = s.harshEvents := by
  simp only [cadencePhase]; split_ifs <;> rfl

@[simp] lemma cadencePhase_accelMagSq (t : ℚ) (s : AppState) :
    (cadencePhase t s).accelMagSq = s.accelMagSq := by
  simp only [cadencePhase]; split_ifs <;> rfl

@[simp] lemma cadencePhase_crashDetected (t : ℚ) (s : AppState) :
    (cadencePhase t s).crashDetected = s.crashDetected := by
  simp only [cadencePhase]; split_ifs <;> rfl

@[simp] lemma cadencePhase_crashLat (t : ℚ) (s : AppState) :
    (cadencePhase t s).crashLat = s.crashLat := by
  simp only [cadencePhase]; split_ifs <;> rfl

@[simp] lemma cadencePhase_crashLng (t : ℚ) (s : AppState) :
    (cadencePhase t s).crashLng = s.crashLng := by
  simp only [cadencePhase]; split_ifs <;> rfl

@[simp] lemma cadencePhase_speedBasedCrash (t : ℚ) (s : AppState) :
    (cadencePhase t s).speedBasedCrash = s.speedBasedCrash := by
  simp only [cadencePhase]; split_ifs <;> rfl

@[simp] lemma cadencePhase_sensorBasedCrash (t : ℚ) (s : AppState) :
    (cadencePhase t s).sensorBasedCrash = s.sensorBasedCrash := by
  simp only [cadencePhase]; split_ifs <;> rfl

@[simp] lemma cadencePhase_speedingDuration (t : ℚ) (s : AppState) :
    (cadencePhase t s).speedingDuration = s.speedingDuration := by
  simp only [cadencePhase]; split_ifs <;> rfl

@[simp] lemma cadencePhase_speedingViolations (t : ℚ) (s : AppState) :
    (cadencePhase t s).speedingViolations = s.speedingViolations := by
  simp only [cadencePhase]; split_ifs <;> rfl

@[simp] lemma cadencePhase_maxSpeedOverLimit (t : ℚ) (s : AppState) :
    (cadencePhase t s).maxSpeedOverLimit = s.maxSpeedOverLimit := by
  simp only [cadencePhase]; split_ifs <;> rfl

@[simp] lemma cadencePhase_currentSpeedLimit (t : ℚ) (s : AppState) :
    (cadencePhase t s).currentSpeedLimit = s.currentSpeedLimit := by
  simp only [cadencePhase]; split_ifs <;> rfl

@[simp] lemma cadencePhase_wasSpeeding (t : ℚ) (s : AppState) :
    (cadencePhase t s).wasSpeeding = s.wasSpeeding := by
  simp only [cadencePhase]; split_ifs <;> rfl

@[simp] lemma cadencePhase_speedingStartTime (t : ℚ) (s : AppState) :
    (cadencePhase t s).speedingStartTime = s.speedingStartTime := by
  simp only [cadencePhase]; split_ifs <;> rfl

@[simp] lemma cadencePhase_smoothedSpeed (t : ℚ) (s : AppState) :
    (cadencePhase t s).smoothedSpeed = s.smoothedSpeed := by
  simp only [cadencePhase]; split_ifs <;> rfl

@[simp] lemma cadencePhase_recentSpeedSamples (t : ℚ) (s : AppState) :
    (cadencePhase t s).recentSpeedSamples = s.recentSpeedSamples := by
  simp only [cadencePhase]; split_ifs <;> rfl

@[simp] lemma cadencePhase_autoStartInProgress (t : ℚ) (s : AppState) :
    (cadencePhase t s).autoStartInProgress = s.autoStartInProgress := by
  simp only [cadencePhase]; split_ifs <;> rfl

@[simp] lemma cadencePhase_isStartingTrip (t : ℚ) (s : AppState) :
    (cadencePhase t s).isStartingTrip = s.isStartingTrip := by
  simp only [cadencePhase]; split_ifs <;> rfl

@[simp] lemma processAccel_status (x y z : ℚ) (s : AppState) :
    (processAccel x y z s).status = s.status := by
  simp only [processAccel]; split_ifs <;> rfl

@[simp] lemma processAccel_speedKmh (x y z : ℚ) (s : AppState) :
    (processAccel x y z s).speedKmh = s.speedKmh := by
  simp only [processAccel]; split_ifs <;> rfl

@[simp] lemma processAccel_safetyScore (x y z : ℚ) (s : AppState) :
    (processAccel x y z s).safetyScore = s.safetyScore := by
  simp only [processAccel]; split_ifs <;> rfl

@[simp] lemma processAccel_errorMsg (x y z : ℚ) (s : AppState) :
    (processAccel x y z s).errorMsg = s.errorMsg := by
  simp only [processAccel]; split_ifs <;> rfl

@[simp] lemma processAccel_tripId (x y z : ℚ) (s : AppState) :
    (processAccel x y z s).tripId = s.tripId := by
  simp only [processAccel]; split_ifs <;> rfl

@[simp] lemma processAccel_lastLocation (x y z : ℚ) (s : AppState) :
    (processAccel x y z s).lastLocation = s.lastLocation := by
  simp only [processAccel]; split_ifs <;> rfl

@[simp] lemma processAccel_speedSum (x y z : ℚ) (s : AppState) :
    (processAccel x y z s).speedSum = s.speedSum := by
  simp only [processAccel]; split_ifs <;> rfl

@[simp] lemma processAccel_speedCount (x y z : ℚ) (s : AppState) :
    (processAccel x y z s).speedCount = s.speedCount := by
  simp only [processAccel]; split_ifs <;> rfl

@[simp] lemma processAccel_tripLocationBuffer (x y z : ℚ) (s : AppState) :
    (processAccel x y z s).tripLocationBuffer = s.tripLocationBuffer := by
  simp only [processAccel]; split_ifs <;> rfl

@[simp] lemma processAccel_lastHarshBrakeTime (x y z : ℚ) (s : AppState) :
    (processAccel x y z s).lastHarshBrakeTime = s.lastHarshBrakeTime := by
  simp only [processAccel]; split_ifs <;> rfl

@[simp] lemma processAccel_lastHarshAccelTime (x y z : ℚ) (s : AppState) :
    (processAccel x y z s).lastHarshAccelTime = s.lastHarshAccelTime := by
  simp only [processAccel]; split_ifs <;> rfl

@[simp] lemma processAccel_harshBrakeCount (x y z : ℚ) (s : AppState) :
    (processAccel x y z s).harshBrakeCount = s.harshBrakeCount := by
  simp only [processAccel]; split_ifs <;> rfl

@[simp] lemma processAccel_harshAccelCount (x y z : ℚ) (s : AppState) :
    (processAccel x y z s).harshAccelCount = s.harshAccelCount := by
  simp only [processAccel]; split_ifs <;> rfl

@[simp] lemma processAccel_harshEvents (x y z : ℚ) (s : AppState) :
    (processAccel x y z s).harshEvents = s.harshEvents := by
  simp only [processAccel]; split_ifs <;> rfl

@[simp] lemma processAccel_crashDetected (x y z : ℚ) (s : AppState) :
    (processAccel x y z s).crashDetected = s.crashDetected := by
  simp only [processAccel]; split_ifs <;> rfl

@[simp] lemma processAccel_crashLat (x y z : ℚ) (s : AppState) :
    (processAccel x y z s).crashLat = s.crashLat := by
  simp only [processAccel]; split_ifs <;> rfl

@[simp] lemma processAccel_crashLng (x y z : ℚ) (s : AppState) :
    (processAccel x y z s).crashLng = s.crashLng := by
  simp only [processAccel]; split_ifs <;> rfl

@[simp] lemma processAccel_speedBasedCrash (x y z : ℚ) (s : AppState) :
    (processAccel x y z s).speedBasedCrash = s.speedBasedCrash := by
  simp only [processAccel]; split_ifs <;> rfl

@[simp] lemma processAccel_speedingDuration (x y z : ℚ) (s : AppState) :
    (processAccel x y z s).speedingDuration = s.speedingDuration := by
  simp only [processAccel]; split_ifs <;> rfl

@[simp] lemma processAccel_speedingViolations (x y z : ℚ) (s : AppState) :
    (processAccel x y z s).speedingViolations = s.speedingViolations := by
  simp only [processAccel]; split_ifs <;> rfl

@[simp] lemma processAccel_maxSpeedOverLimit (x y z : ℚ) (s : AppState) :
    (processAccel x y z s).maxSpeedOverLimit = s.maxSpeedOverLimit := by
  simp only [processAccel]; split_ifs <;> rfl

@[simp] lemma processAccel_lastSpeedCheckTime (x y z : ℚ) (s : AppState) :
    (processAccel x y z s).lastSpeedCheckTime = s.lastSpeedCheckTime := by
  simp only [processAccel]; split_ifs <;> rfl

@[simp] lemma processAccel_currentSpeedLimit (x y z : ℚ) (s : AppState) :
    (processAccel x y z s).currentSpeedLimit = s.currentSpeedLimit := by
  simp only [processAccel]; split_ifs <;> rfl

@[simp] lemma processAccel_wasSpeeding (x y z : ℚ) (s : AppState) :
    (processAccel x y z s).wasSpeeding = s.wasSpeeding := by
  simp only [processAccel]; split_ifs <;> rfl

@[simp] lemma processAccel_speedingStartTime (x y z : ℚ) (s : AppState) :
    (processAccel x y z s).speedingStartTime = s.speedingStartTime := by
  simp only [processAccel]; split_ifs <;> rfl

@[simp] lemma processAccel_smoothedSpeed (x y z : ℚ) (s : AppState) :
    (processAccel x y z s).smoothedSpeed = s.smoothedSpeed := by
  simp only [processAccel]; split_ifs <;> rfl

@[simp] lemma processAccel_recentSpeedSamples (x y z : ℚ) (s : AppState) :
    (processAccel x y z s).recentSpeedSamples = s.recentSpeedSamples := by
  simp only [processAccel]; split_ifs <;> rfl

@[simp] lemma processAccel_autoStartInProgress (x y z : ℚ) (s : AppState) :
    (processAccel x y z s).autoStartInProgress = s.autoStartInProgress := by
  simp only [processAccel]; split_ifs <;> rfl

@[simp] lemma processAccel_isStartingTrip (x y z : ℚ) (s : AppState) :
    (processAccel x y z s).isStartingTrip = s.isStartingTrip := by
  simp only [processAccel]; split_ifs <;> rfl

@[simp] lemma applySpeedCheck_status (d : SpeedLimitInfo) (v t : ℚ) (s : AppState) :
    (applySpeedCheck d v t s).status = s.status := by
  simp only [applySpeedCheck]; split_ifs <;> rfl

@[simp] lemma applySpeedCheck_speedKmh (d : SpeedLimitInfo) (v t : ℚ) (s : AppState) :
    (applySpeedCheck d v t s).speedKmh = s.speedKmh := by
  simp only [applySpeedCheck]; split_ifs <;> rfl

@[simp] lemma applySpeedCheck_safetyScore (d : SpeedLimitInfo) (v t : ℚ) (s : AppState) :
    (applySpeedCheck d v t s).safetyScore = s.safetyScore := by
  simp only [applySpeedCheck]; split_ifs <;> rfl

@[simp] lemma applySpeedCheck_errorMsg (d : SpeedLimitInfo) (v t : ℚ) (s : AppState) :
    (applySpeedCheck d v t s).errorMsg = s.errorMsg := by
  simp only [applySpeedCheck]; split_ifs <;> rfl

@[simp] lemma applySpeedCheck_tripId (d : SpeedLimitInfo) (v t : ℚ) (s : AppState) :
    (applySpeedCheck d v t s).tripId = s.tripId := by
  simp only [applySpeedCheck]; split_ifs <;> rfl

@[simp] lemma applySpeedCheck_lastLocation (d : SpeedLimitInfo) (v t : ℚ) (s : AppState) :
    (applySpeedCheck d v t s).lastLocation = s.lastLocation := by
  simp only [applySpeedCheck]; split_ifs <;> rfl

@[simp] lemma applySpeedCheck_speedSum (d : SpeedLimitInfo) (v t : ℚ) (s : AppState) :
    (applySpeedCheck d v t s).speedSum = s.speedSum := by
  simp only [applySpeedCheck]; split_ifs <;> rfl

@[simp] lemma applySpeedCheck_speedCount (d : SpeedLimitInfo) (v t : ℚ) (s : AppState) :
    (applySpeedCheck d v t s).speedCount = s.speedCount := by
  simp only [applySpeedCheck]; split_ifs <;> rfl

@[simp] lemma applySpeedCheck_tripLocationBuffer (d : SpeedLimitInfo) (v t : ℚ) (s : AppState) :
    (applySpeedCheck d v t s).tripLocationBuffer = s.tripLocationBuffer := by
  simp only [applySpeedCheck]; split_ifs <;> rfl

@[simp] lemma applySpeedCheck_lastHarshBrakeTime (d : SpeedLimitInfo) (v t : ℚ) (s : AppState) :
    (applySpeedCheck d v t s).lastHarshBrakeTime = s.lastHarshBrakeTime := by
  simp only [applySpeedCheck]; split_ifs <;> rfl

@[simp] lemma applySpeedCheck_lastHarshAccelTime (d : SpeedLimitInfo) (v t : ℚ) (s : AppState) :
    (applySpeedCheck d v t s).lastHarshAccelTime = s.lastHarshAccelTime := by
  simp only [applySpeedCheck]; split_ifs <;> rfl

@[simp] lemma applySpeedCheck_harshBrakeCount (d : SpeedLimitInfo) (v t : ℚ) (s : AppState) :
    (applySpeedCheck d v t s).harshBrakeCount = s.harshBrakeCount := by
  simp only [applySpeedCheck]; split_ifs <;> rfl

@[simp] lemma applySpeedCheck_harshAccelCount (d : SpeedLimitInfo) (v t : ℚ) (s : AppState) :
    (applySpeedCheck d v t s).harshAccelCount = s.harshAccelCount := by
  simp only [applySpeedCheck]; split_ifs <;> rfl

@[simp] lemma applySpeedCheck_harshEvents (d : SpeedLimitInfo) (v t : ℚ) (s : AppState) :
    (applySpeedCheck d v t s).harshEvents = s.harshEvents := by
  simp only [applySpeedCheck]; split_ifs <;> rfl

@[simp] lemma applySpeedCheck_accelMagSq (d : SpeedLimitInfo) (v t : ℚ) (s : AppState) :
    (applySpeedCheck d v t s).accelMagSq = s.accelMagSq := by
  simp only [applySpeedCheck]; split_ifs <;> rfl

@[simp] lemma applySpeedCheck_crashDetected (d : SpeedLimitInfo) (v t : ℚ) (s : AppState) :
    (applySpeedCheck d v t s).crashDetected = s.crashDetected := by
  simp only [applySpeedCheck]; split_ifs <;> rfl

@[simp] lemma applySpeedCheck_crashLat (d : SpeedLimitInfo) (v t : ℚ) (s : AppState) :
    (applySpeedCheck d v t s).crashLat = s.crashLat := by
  simp only [applySpeedCheck]; split_ifs <;> rfl

@[simp] lemma applySpeedCheck_crashLng (d : SpeedLimitInfo) (v t : ℚ) (s : AppState) :
    (applySpeedCheck d v t s).crashLng = s.crashLng := by
  simp only [applySpeedCheck]; split_ifs <;> rfl

@[simp] lemma applySpeedCheck_speedBasedCrash (d : SpeedLimitInfo) (v t : ℚ) (s : AppState) :
    (applySpeedCheck d v t s).speedBasedCrash = s.speedBasedCrash := by
  simp only [applySpeedCheck]; split_ifs <;> rfl

@[simp] lemma applySpeedCheck_sensorBasedCrash (d : SpeedLimitInfo) (v t : ℚ) (s : AppState) :
    (applySpeedCheck d v t s).sensorBasedCrash = s.sensorBasedCrash := by
  simp only [applySpeedCheck]; split_ifs <;> rfl

@[simp] lemma applySpeedCheck_lastSpeedCheckTime (d : SpeedLimitInfo) (v t : ℚ) (s : AppState) :
    (applySpeedCheck d v t s).lastSpeedCheckTime = s.lastSpeedCheckTime := by
  simp only [applySpeedCheck]; split_ifs <;> rfl

@[simp] lemma applySpeedCheck_smoothedSpeed (d : SpeedLimitInfo) (v t : ℚ) (s : AppState) :
    (applySpeedCheck d v t s).smoothedSpeed = s.smoothedSpeed := by
  simp only [applySpeedCheck]; split_ifs <;> rfl

@[simp] lemma applySpeedCheck_recentSpeedSamples (d : SpeedLimitInfo) (v t : ℚ) (s : AppState) :
    (applySpeedCheck d v t s).recentSpeedSamples = s.recentSpeedSamples := by
  simp only [applySpeedCheck]; split_ifs <;> rfl

@[simp] lemma applySpeedCheck_autoStartInProgress (d : SpeedLimitInfo) (v t : ℚ) (s : AppState) :
    (applySpeedCheck d v t s).autoStartInProgress = s.autoStartInProgress := by
  simp only [applySpeedCheck]; split_ifs <;> rfl

@[simp] lemma applySpeedCheck_isStartingTrip (d : SpeedLimitInfo) (v t : ℚ) (s : AppState) :
    (applySpeedCheck d v t s).isStartingTrip = s.isStartingTrip := by
  simp only [applySpeedCheck]; split_ifs <;> rfl


@[simp] lemma speedPhase_speedSum_active (r : ℚ) {s : AppState}
    (h : s.tripId.isSome = true) : (speedPhase r s).speedSum = s.speedSum + r := by
  simp [speedPhase, h]

@[simp] lemma speedPhase_speedCount_active (r : ℚ) {s : AppState}
    (h : s.tripId.isSome = true) : (speedPhase r s).speedCount = s.speedCount + 1 := by
  simp [speedPhase, h]

/-! ## Location-callback preservation lemmas -/

@[simp] lemma processLocation_wasSpeeding (dist : ℚ → ℚ → ℚ → ℚ → ℚ) (nf : ℚ)
    (sample : Sample) (s : AppState) :
    (processLocation dist nf sample s).wasSpeeding = s.wasSpeeding := by
  rcases hla : sample.latitude with _ | la
  · simp [processLocation, hla]
  rcases hlo : sample.longitude with _ | lo
  · simp [processLocation, hla, hlo]
  simp only [processLocation, hla, hlo]
  rcases hp : s.lastLocation with _ | p
  · simp only [hp]
    split_ifs <;> simp
  · simp only [hp]
    split_ifs <;> simp

@[simp] lemma processLocation_speedingStartTime (dist : ℚ → ℚ → ℚ → ℚ → ℚ) (nf : ℚ)
    (sample : Sample) (s : AppState) :
    (processLocation dist nf sample s).speedingStartTime = s.speedingStartTime := by
  rcases hla : sample.latitude with _ | la
  · simp [processLocation, hla]
  rcases hlo : sample.longitude with _ | lo
  · simp [processLocation, hla, hlo]
  simp only [processLocation, hla, hlo]
  rcases hp : s.lastLocation with _ | p
  · simp only [hp]
    split_ifs <;> simp
  · simp only [hp]
    split_ifs <;> simp

@[simp] lemma processLocation_speedingDuration (dist : ℚ → ℚ → ℚ → ℚ → ℚ) (nf : ℚ)
    (sample : Sample) (s : AppState) :
    (processLocation dist nf sample s).speedingDuration = s.speedingDuration := by
  rcases hla : sample.latitude with _ | la
  · simp [processLocation, hla]
  rcases hlo : sample.longitude with _ | lo
  · simp [processLocation, hla, hlo]
  simp only [processLocation, hla, hlo]
  rcases hp : s.lastLocation with _ | p
  · simp only [hp]
    split_ifs <;> simp
  · simp only [hp]
    split_ifs <;> simp

@[simp] lemma processLocation_speedingViolations (dist : ℚ → ℚ → ℚ → ℚ → ℚ) (nf : ℚ)
    (sample : Sample) (s : AppState) :
    (processLocation dist nf sample s).speedingViolations = s.speedingViolations := by
  rcases hla : sample.latitude with _ | la
  · simp [processLocation, hla]
  rcases hlo : sample.longitude with _ | lo
  · simp [processLocation, hla, hlo]
  simp only [processLocation, hla, hlo]
  rcases hp : s.lastLocation with _ | p
  · simp only [hp]
    split_ifs <;> simp
  · simp only [hp]
    split_ifs <;> simp

@[simp] lemma processLocation_maxSpeedOverLimit (dist : ℚ → ℚ → ℚ → ℚ → ℚ) (nf : ℚ)
    (sample : Sample) (s : AppState) :
    (processLocation dist nf sample s).maxSpeedOverLimit = s.maxSpeedOverLimit := by
  rcases hla : sample.latitude with _ | la
  · simp [processLocation, hla]
  rcases hlo : sample.longitude with _ | lo
  · simp [processLocation, hla, hlo]
  simp only [processLocation, hla, hlo]
  rcases hp : s.lastLocation with _ | p
  · simp only [hp]
    split_ifs <;> simp
  · simp only [hp]
    split_ifs <;> simp

@[simp] lemma processLocation_currentSpeedLimit (dist : ℚ → ℚ → ℚ → ℚ → ℚ) (nf : ℚ)
    (sample : Sample) (s : AppState) :
    (processLocation dist nf sample s).currentSpeedLimit = s.currentSpeedLimit := by
  rcases hla : sample.latitude with _ | la
  · simp [processLocation, hla]
  rcases hlo : sample.longitude with _ | lo
  · simp [processLocation, hla, hlo]
  simp only [processLocation, hla, hlo]
  rcases hp : s.lastLocation with _ | p
  · simp only [hp]
    split_ifs <;> simp
  · simp only [hp]
    split_ifs <;> simp

@[simp] lemma processLocation_status (dist : ℚ → ℚ → ℚ → ℚ → ℚ) (nf : ℚ)
    (sample : Sample) (s : AppState) :
    (processLocation dist nf sample s).status = s.status := by
  rcases hla : sample.latitude with _ | la
  · simp [processLocation, hla]
  rcases hlo : sample.longitude with _ | lo
  · simp [processLocation, hla, hlo]
  simp only [processLocation, hla, hlo]
  rcases hp : s.lastLocation with _ | p
  · simp only [hp]
    split_ifs <;> simp
  · simp only [hp]
    split_ifs <;> simp

@[simp] lemma processLocation_safetyScore (dist : ℚ → ℚ → ℚ → ℚ → ℚ) (nf : ℚ)
    (sample : Sample) (s : AppState) :
    (processLocation dist nf sample s).safetyScore = s.safetyScore := by
  rcases hla : sample.latitude with _ | la
  · simp [processLocation, hla]
  rcases hlo : sample.longitude with _ | lo
  · simp [processLocation, hla, hlo]
  simp only [processLocation, hla, hlo]
  rcases hp : s.lastLocation with _ | p
  · simp only [hp]
    split_ifs <;> simp
  · simp only [hp]
    split_ifs <;> simp

@[simp] lemma processLocation_isStartingTrip (dist : ℚ → ℚ → ℚ → ℚ → ℚ) (nf : ℚ)
    (sample : Sample) (s : AppState) :
    (processLocation dist nf sample s).isStartingTrip = s.isStartingTrip := by
  rcases hla : sample.latitude with _ | la
  · simp [processLocation, hla]
  rcases hlo : sample.longitude with _ | lo
  · simp [processLocation, hla, hlo]
  simp only [processLocation, hla, hlo]
  rcases hp : s.lastLocation with _ | p
  · simp only [hp]
    split_ifs <;> simp
  · simp only [hp]
    split_ifs <;> simp

@[simp] lemma processLocation_accelMagSq (dist : ℚ → ℚ → ℚ → ℚ → ℚ) (nf : ℚ)
    (sample : Sample) (s : AppState) :
    (processLocation dist nf sample s).accelMagSq = s.accelMagSq := by
  rcases hla : sample.latitude with _ | la
  · simp [processLocation, hla]
  rcases hlo : sample.longitude with _ | lo
  · simp [processLocation, hla, hlo]
  simp only [processLocation, hla, hlo]
  rcases hp : s.lastLocation with _ | p
  · simp only [hp]
    split_ifs <;> simp
  · simp only [hp]
    split_ifs <;> simp


@[simp] lemma processLocation_tripId (dist : ℚ → ℚ → ℚ → ℚ → ℚ) (nf : ℚ)
    (sample : Sample) (s : AppState) :
    (processLocation dist nf sample s).tripId = s.tripId := by
  rcases hla : sample.latitude with _ | la
  · simp [processLocation, hla]
  rcases hlo : sample.longitude with _ | lo
  · simp [processLocation, hla, hlo]
  simp only [processLocation, hla, hlo]
  rcases hp : s.lastLocation with _ | p
  · simp only [hp]
    split_ifs <;> simp
  · simp only [hp]
    split_ifs <;> simp

/-! ## Claims C4–C7 -/

/-- **C4.** When a posted (OSM) limit was parsed and deviates from the
jurisdiction legal limit for the road class by more than 20 km/h, the
resolver returns the legal limit with source `legal_validated` (never
the raw posted value); within 20 km/h it returns the posted value with
source `osm`. -/
theorem c4_resolver_validation (road : Road) (rest : List Road) (v : ℕ)
    (hp : osmSpeedOf road = some v) :
    (((v : ℤ) - (legalLimitFor road.highway : ℤ)).natAbs > 20 →
      (getSpeedLimit (.roads (road :: rest))).source = "legal_validated" ∧
      (getSpeedLimit (.roads (road :: rest))).speedLimit = legalLimitFor road.highway ∧
      (getSpeedLimit (.roads (road :: rest))).speedLimit ≠ v) ∧
    (((v : ℤ) - (legalLimitFor road.highway : ℤ)).natAbs ≤ 20 →
      (getSpeedLimit (.roads (road :: rest))).source = "osm" ∧
      (getSpeedLimit (.roads (road :: rest))).speedLimit = v) := by
  simp only [getSpeedLimit, getSpeedLimitCatch, getSpeedLimitTry, resolveRoad, hp]
  constructor
  · intro h
    have hne : ¬ (((v : ℤ) - (legalLimitFor road.highway : ℤ)).natAbs ≤ 20) := by omega
    have hv : legalLimitFor road.highway ≠ v := by omega
    rw [if_neg hne]
    exact ⟨rfl, rfl, fun hEq => hv hEq⟩
  · intro h
    rw [if_pos h]
    exact ⟨rfl, rfl⟩

/-- Witness for `c4_resolver_validation`: a residential road (legal
limit 50) with posted tag `"120"` is distrusted (difference 70 > 20) and
the legal limit is returned with source `legal_validated`. -/
theorem c4_witness :
    (getSpeedLimit (.roads [⟨"residential", some "120"⟩])).source = "legal_validated" ∧
    (getSpeedLimit (.roads [⟨"residential", some "120"⟩])).speedLimit = 50 := by
  have h := c4_resolver_validation ⟨"residential", some "120"⟩ [] 120 (by decide)
  have h2 := h.1 (by decide)
  exact ⟨h2.1, by rw [h2.2.1]; decide⟩

/-- **C5.** The resolver is total: for every external outcome the
try/catch produces `Except.ok` (it never raises), and on a network or
timeout failure it returns the global default limit 60 km/h with source
`default_error`. -/
theorem c5_resolver_total :
    (∀ o : FetchOutcome, ∃ info,
      getSpeedLimitCatch o = Except.ok info ∧ getSpeedLimit o = info) ∧
    (∀ m, getSpeedLimit (FetchOutcome.failure m) = defaultErrorInfo) ∧
    defaultErrorInfo.speedLimit = 60 ∧ defaultErrorInfo.source = "default_error" := by
  refine ⟨?_, fun m => rfl, rfl, rfl⟩
  intro o
  match o with
  | .failure m => exact ⟨defaultErrorInfo, rfl, rfl⟩
  | .malformed => exact ⟨defaultInfo, rfl, rfl⟩
  | .roads [] => exact ⟨defaultInfo, rfl, rfl⟩
  | .roads (road :: rest) => exact ⟨resolveRoad road, rfl, rfl⟩

/-- **C6.** After a cached-resolver call that issued an external query
and inserted the entry at time `t1`, a second call on the same 3-decimal
grid cell at time `t2` returns the stored data without querying when
`t2 − t1 < 2` minutes, and issues a second external query when
`t2 − t1 ≥ 2` minutes. -/
theorem c6_cache_window (q1 q2 : SpeedLimitInfo) (t1 t2 la1 lo1 la2 lo2 : ℚ)
    (c : List CacheEntry) (h100 : c.length ≤ 100)
    (hkey : cacheKey la2 lo2 = cacheKey la1 lo1)
    (hq : (getSpeedLimitCachedStep q1 t1 la1 lo1 c).2.2 = true) :
    (t2 - t1 < 120000 →
      getSpeedLimitCachedStep q2 t2 la2 lo2 (getSpeedLimitCachedStep q1 t1 la1 lo1 c).2.1 =
        (q1, (getSpeedLimitCachedStep q1 t1 la1 lo1 c).2.1, false)) ∧
    (t2 - t1 ≥ 120000 →
      (getSpeedLimitCachedStep q2 t2 la2 lo2
        (getSpeedLimitCachedStep q1 t1 la1 lo1 c).2.1).2.2 = true) := by
  set c1 := (getSpeedLimitCachedStep q1 t1 la1 lo1 c).2.1 with hc1
  have hg : cacheGet c1 (cacheKey la1 lo1) = some ⟨cacheKey la1 lo1, q1, t1⟩ :=
    step_queried_get h100 hq
  constructor
  · intro ht
    have ht' : t2 - t1 < CACHE_DURATION_MS := by rw [CACHE_DURATION_MS]; exact ht
    simp only [getSpeedLimitCachedStep, hkey, hg, if_pos ht']
  · intro ht
    have hexp : ¬ (t2 - t1 < CACHE_DURATION_MS) := by
      rw [CACHE_DURATION_MS]; linarith
    simp only [getSpeedLimitCachedStep, hkey, hg, if_neg hexp]

/-- Witness for `c6_cache_window`: starting from the empty cache, a call
at time 0 inserts; 60 s later the same cell is served from the cache. -/
theorem c6_witness :
    getSpeedLimitCachedStep defaultInfo 60000 1 1
        (getSpeedLimitCachedStep defaultInfo 0 1 1 []).2.1 =
      (defaultInfo, (getSpeedLimitCachedStep defaultInfo 0 1 1 []).2.1, false) :=
  (c6_cache_window defaultInfo defaultInfo 0 60000 1 1 1 1 []
    (by simp) rfl (by simp [getSpeedLimitCachedStep, cacheGet])).1 (by norm_num)

/-- **C7.** The cache never exceeds 100 entries: every reachable cache
state (fold of calls from the empty cache) has at most 100 entries, a
single call preserves the bound, and when an insertion of a new key
lands on a full (100-entry) cache, exactly the oldest entry (the head,
i.e. first in insertion order) is evicted. -/
theorem c7_cache_bound :
    (∀ inputs : List (SpeedLimitInfo × ℚ × ℚ × ℚ),
      (runCachedCalls inputs []).length ≤ 100) ∧
    (∀ (q : SpeedLimitInfo) (now la lo : ℚ) (c : List CacheEntry),
      c.length ≤ 100 → ((getSpeedLimitCachedStep q now la lo c).2.1).length ≤ 100) ∧
    (∀ (q : SpeedLimitInfo) (now la lo : ℚ) (c : List CacheEntry),
      c.length = 100 → cacheGet c (cacheKey la lo) = none →
      (getSpeedLimitCachedStep q now la lo c).2.1 =
        c.drop 1 ++ [⟨cacheKey la lo, q, now⟩] ∧
      ((getSpeedLimitCachedStep q now la lo c).2.1).length = 100) := by
  have step_bound : ∀ (q : SpeedLimitInfo) (now la lo : ℚ) (c : List CacheEntry),
      c.length ≤ 100 → ((getSpeedLimitCachedStep q now la lo c).2.1).length ≤ 100 := by
    intro q now la lo c h100
    rcases hg : cacheGet c (cacheKey la lo) with _ | e
    · have hset := @cacheSet_of_get_none _ _ q now hg
      simp only [getSpeedLimitCachedStep, hg, hset]
      by_cases hlen : (c ++ [(⟨cacheKey la lo, q, now⟩ : CacheEntry)]).length > 100
      · rw [if_pos hlen]
        simp at hlen ⊢
        omega
      · rw [if_neg hlen]
        simp at hlen ⊢
        omega
    · by_cases hexp : now - e.timestamp < CACHE_DURATION_MS
      · simpa [getSpeedLimitCachedStep, hg, hexp] using h100
      · have hlen : ¬ (cacheSet c (cacheKey la lo) q now).length > 100 := by
          rw [cacheSet_length_of_get_some (by simp [hg])]; omega
        simp only [getSpeedLimitCachedStep, hg, if_neg hexp, if_neg hlen]
        rw [cacheSet_length_of_get_some (by simp [hg])]
        exact h100
  refine ⟨?_, step_bound, ?_⟩
  · have gen : ∀ (inputs : List (SpeedLimitInfo × ℚ × ℚ × ℚ)) (c : List CacheEntry),
        c.length ≤ 100 → (runCachedCalls inputs c).length ≤ 100 := by
      intro inputs
      induction inputs with
      | nil => intro c h; exact h
      | cons p rest ih =>
        intro c h
        obtain ⟨q, now, la, lo⟩ := p
        exact ih _ (step_bound q now la lo c h)
    exact fun inputs => gen inputs [] (by simp)
  · intro q now la lo c hc hg
    have hset := @cacheSet_of_get_none _ _ q now hg
    have hcne : 1 ≤ c.length := by omega
    simp only [getSpeedLimitCachedStep, hg, hset]
    have hlen : (c ++ [(⟨cacheKey la lo, q, now⟩ : CacheEntry)]).length > 100 := by
      simp; omega
    rw [if_pos hlen, List.drop_append_of_le_length hcne]
    refine ⟨rfl, ?_⟩
    simp
    omega

/-- Witness for `c7_cache_bound`: the bound holds after a single call
from empty, and the eviction clause fires on a concrete full cache of
100 distinct-keyed entries. -/
theorem c7_witness :
    ((getSpeedLimitCachedStep defaultInfo 0 1 1 []).2.1).length ≤ 100 ∧
    ((getSpeedLimitCachedStep defaultInfo 5 2 2
        (List.replicate 100 (⟨(1, 1), defaultInfo, 0⟩ : CacheEntry))).2.1).length = 100 := by
  refine ⟨c7_cache_bound.2.1 defaultInfo 0 1 1 [] (by simp), ?_⟩
  refine (c7_cache_bound.2.2 defaultInfo 5 2 2
    (List.replicate 100 (⟨(1, 1), defaultInfo, 0⟩ : CacheEntry))
    (by simp) ?_).2
  rw [cacheGet_eq_none_iff]
  intro x hx
  rw [List.eq_of_mem_replicate hx]
  have hk : cacheKey 2 2 = ((2 : ℚ), (2 : ℚ)) := by
    simp only [cacheKey, jsRound]
    norm_num
  rw [hk]
  simp only [ne_eq, Prod.mk.injEq]
  norm_num

/-! ## Claim C1 -/

/-- **C1 counterexample.** A start invocation while the session is
Active is *not* a no-op: `handleStartTrip` has no Active-state guard
(only the `isStartingTrip` double-tap guard and the location check), so
on a state with a recorded harsh brake it resets the aggregate. -/
theorem c1_counterexample :
    c1State.status = TripStatus.driving ∧
    (handleStartTrip (Except.ok 2) c1State).harshBrakeCount ≠ c1State.harshBrakeCount := by
  refine ⟨rfl, ?_⟩
  simp [handleStartTrip, c1State, initState]

/-- **C1 (amended).** Ending a trip while the session is Idle
(`tripId == null`) is a complete no-op.  Starting, however, is guarded
only against a concurrently in-flight start and a missing location fix,
not against the Active status: whenever no start is in flight and a fix
exists, a successful `handleStartTrip` installs the new trip id and
resets every aggregate, regardless of the current status. -/
theorem c1_amended :
    (∀ (now : ℚ) (backend : Except String ℚ) (s : AppState),
      s.tripId = none → handleEndTrip now backend s = s) ∧
    (∀ (tid : ℕ) (s : AppState), s.isStartingTrip = false → s.lastLocation ≠ none →
      (handleStartTrip (Except.ok tid) s).tripId = some tid ∧
      (handleStartTrip (Except.ok tid) s).tripLocationBuffer = [] ∧
      (handleStartTrip (Except.ok tid) s).speedSum = 0 ∧
      (handleStartTrip (Except.ok tid) s).speedCount = 0 ∧
      (handleStartTrip (Except.ok tid) s).harshBrakeCount = 0 ∧
      (handleStartTrip (Except.ok tid) s).harshAccelCount = 0 ∧
      (handleStartTrip (Except.ok tid) s).harshEvents = [] ∧
      (handleStartTrip (Except.ok tid) s).crashDetected = false ∧
      (handleStartTrip (Except.ok tid) s).speedingDuration = 0 ∧
      (handleStartTrip (Except.ok tid) s).speedingViolations = 0 ∧
      (handleStartTrip (Except.ok tid) s).maxSpeedOverLimit = 0 ∧
      (handleStartTrip (Except.ok tid) s).wasSpeeding = false ∧
      (handleStartTrip (Except.ok tid) s).speedingStartTime = none) := by
  constructor
  · intro now backend s h
    simp [handleEndTrip, h]
  · intro tid s h1 h2
    rcases hl : s.lastLocation with _ | p
    · exact absurd hl h2
    · simp [handleStartTrip, h1, hl]

/-- Witness for `c1_amended`: end-while-Idle leaves the initial state
untouched, and a successful start on the Active `c1State` resets the
harsh-brake count. -/
theorem c1_witness :
    handleEndTrip 0 (Except.ok 0) initState = initState ∧
    (handleStartTrip (Except.ok 2) c1State).harshBrakeCount = 0 :=
  ⟨c1_amended.1 0 (Except.ok 0) initState rfl,
   (c1_amended.2 2 c1State rfl (by simp [c1State, initState])).2.2.2.2.1⟩

/-! ## Claim C3 -/

/-- **C3 counterexample.** The claim quantifies over *every* pair of
samples meeting the accuracy/time/displacement thresholds, but a
non-negative device-reported speed takes precedence over the
displacement-derived speed: with a reported 0 m/s the raw speed is 0,
not the 72 km/h that the 30 m displacement over 1.5 s would give. -/
theorem c3_counterexample :
    computeRawSpeed constDist (some ⟨0, 0, 0⟩) 1 1 1500 (some 10) (some 0) = 0 ∧
    constDist 0 0 1 1 / ((1500 - (0 : ℚ)) / 1000 / 3600) = 72 ∧
    (0 : ℚ) ≠ 72 := by
  refine ⟨?_, by norm_num [constDist], by norm_num⟩
  simp [computeRawSpeed, coordsSpeedKmhOf]

/-- **C3 (amended).** For a sample carrying no non-negative
device-reported speed, processed against a previous accepted fix with
reported accuracy ≤ 35 m, elapsed time ≥ 1.5 s and displacement ≥ 15 m,
the raw speed is exactly the distance divided by the elapsed time
(converted to km/h; the model is exact rational arithmetic, so no
floating-point tolerance is needed). -/
theorem c3_amended (dist : ℚ → ℚ → ℚ → ℚ → ℚ) (p : LastLoc)
    (latitude longitude time acc : ℚ) (speedMs : Option ℚ)
    (hdev : coordsSpeedKmhOf speedMs = none)
    (hacc : acc ≤ 35) (ht : time - p.time ≥ 1500)
    (hdist : dist p.lat p.lng latitude longitude ≥ 15 / 1000) :
    computeRawSpeed dist (some p) latitude longitude time (some acc) speedMs =
      dist p.lat p.lng latitude longitude / ((time - p.time) / 1000 / 3600) := by
  have hpos : (time - p.time) / 1000 / 3600 > 0 := by
    have h1 : (0 : ℚ) < time - p.time := by linarith
    positivity
  simp only [computeRawSpeed, hdev, Option.getD_some]
  rw [if_pos ht, if_pos ⟨hpos, hdist, Or.inl hacc⟩]

/-- Witness for `c3_amended`: a sample with no device speed, accuracy
10 m, Δt = 1.5 s and 30 m displacement gets raw speed 72 km/h. -/
theorem c3_witness :
    computeRawSpeed constDist (some ⟨0, 0, 0⟩) 1 1 1500 (some 10) none = 72 := by
  rw [c3_amended constDist ⟨0, 0, 0⟩ 1 1 1500 10 none rfl (by norm_num) (by norm_num)
    (by norm_num [constDist])]
  norm_num [constDist]

/-! ## Claim C10 -/

/-- **C10.** While a trip is Active, a sample with no usable
device-reported speed whose displacement-speed preconditions fail gets
raw speed exactly 0, and that 0 is still appended to the trip buffer and
counted into the average-speed running sum and count (diluting the trip
average). -/
theorem c10_zero_speed_counted (dist : ℚ → ℚ → ℚ → ℚ → ℚ) (nowFallback : ℚ)
    (sample : Sample) (s : AppState) (la lo : ℚ)
    (hla : sample.latitude = some la) (hlo : sample.longitude = some lo)
    (htrip : s.tripId.isSome = true)
    (hdev : coordsSpeedKmhOf sample.speedMs = none)
    (hfail : ¬ displacementSpeedOk dist s.lastLocation la lo
      (sampleTime nowFallback sample.timestampRaw) sample.accuracy) :
    computeRawSpeed dist s.lastLocation la lo
      (sampleTime nowFallback sample.timestampRaw) sample.accuracy sample.speedMs = 0 ∧
    (processLocation dist nowFallback sample s).speedSum = s.speedSum ∧
    (processLocation dist nowFallback sample s).speedCount = s.speedCount + 1 ∧
    (processLocation dist nowFallback sample s).tripLocationBuffer =
      s.tripLocationBuffer ++
        [⟨la, lo, sampleTime nowFallback sample.timestampRaw, 0⟩] := by
  have hzero : computeRawSpeed dist s.lastLocation la lo
      (sampleTime nowFallback sample.timestampRaw) sample.accuracy sample.speedMs = 0 := by
    rcases hprev : s.lastLocation with _ | p
    · simp [computeRawSpeed, hdev]
    · rw [hprev] at hfail
      simp only [computeRawSpeed, hdev]
      by_cases h15 : sampleTime nowFallback sample.timestampRaw - p.time ≥ 1500
      · rw [if_pos h15, if_neg ?_]
        intro hc
        exact hfail ⟨h15, hc.1, hc.2.1, hc.2.2⟩
      · rw [if_neg h15]
  have key : (processLocation dist nowFallback sample s).speedSum = s.speedSum ∧
      (processLocation dist nowFallback sample s).speedCount = s.speedCount + 1 ∧
      (processLocation dist nowFallback sample s).tripLocationBuffer =
        s.tripLocationBuffer ++
          [⟨la, lo, sampleTime nowFallback sample.timestampRaw, 0⟩] := by
    rcases hprev : s.lastLocation with _ | p
    · rw [hprev] at hzero
      simp [processLocation, hla, hlo, hprev, hzero, htrip]
    · rw [hprev] at hzero
      simp [processLocation, hla, hlo, hprev, hzero, htrip]
      try split_ifs <;> simp [htrip]
  exact ⟨hzero, key.1, key.2.1, key.2.2⟩

/-- Witness for `c10_zero_speed_counted`: mid-trip sample 500 ms after
the previous fix, no device speed — the zero is buffered and counted. -/
theorem c10_witness :
    (processLocation constDist 0
      (⟨some 33, some 35, some 1500000000000500, some 10, none⟩ : Sample)
      c10State).speedCount = c10State.speedCount + 1 ∧
    (processLocation constDist 0
      (⟨some 33, some 35, some 1500000000000500, some 10, none⟩ : Sample)
      c10State).speedSum = c10State.speedSum := by
  have h := c10_zero_speed_counted constDist 0
    (⟨some 33, some 35, some 1500000000000500, some 10, none⟩ : Sample)
    c10State 33 35 rfl rfl rfl rfl ?_
  · exact ⟨h.2.2.1, h.2.1⟩
  · simp only [displacementSpeedOk, c10State, initState]
    intro hc
    have := hc.1
    norm_num [sampleTime] at this

/-! ## Claim C2 -/

lemma speedingWeak_step (dist : ℚ → ℚ → ℚ → ℚ → ℚ) (op : Op) (s : AppState)
    (h : speedingFlagImpliesStart s) : speedingFlagImpliesStart (applyOp dist op s) := by
  cases op with
  | loc sample nf =>
    simpa [applyOp, speedingFlagImpliesStart] using h
  | accel x y z =>
    simpa [applyOp, speedingFlagImpliesStart] using h
  | sensorDecay =>
    simpa [applyOp, speedingFlagImpliesStart] using h
  | speedCheck d v t =>
    simp only [applyOp, applySpeedCheck, speedingFlagImpliesStart] at h ⊢
    split_ifs <;> simp_all
  | start backend =>
    simp only [applyOp]
    rcases backend with m | tid <;> rcases hl : s.lastLocation with _ | p <;>
      simp only [handleStartTrip, hl, speedingFlagImpliesStart] at h ⊢ <;>
      (first | (split_ifs <;> simp_all) | simp_all)
  | stop now backend =>
    simp only [applyOp]
    rcases ht : s.tripId with _ | tid <;> rcases hl : s.lastLocation with _ | p <;>
      rcases backend with m | score <;>
      simp only [handleEndTrip, ht, hl, speedingFlagImpliesStart] at h ⊢ <;>
      (first | (split_ifs <;> simp_all) | simp_all | exact h)

lemma speedingWeak_run (dist : ℚ → ℚ → ℚ → ℚ → ℚ) (ops : List Op) (s : AppState)
    (h : speedingFlagImpliesStart s) : speedingFlagImpliesStart (runOps dist ops s) := by
  induction ops generalizing s with
  | nil => exact h
  | cons op rest ih => exact ih _ (speedingWeak_step dist op s h)

/-- **C2 counterexample.** A reachable trace (fix, start, drive at
108 km/h, resolver callback opening a speeding episode, end trip)
finishes with `wasSpeeding = false` but `speedingStartTime` still set:
the trip-end finalization clears only the flag, so the claimed iff
invariant is violated immediately after trip-end. -/
theorem c2_counterexample :
    (runOps constDist c2Ops initState).wasSpeeding = false ∧
    (runOps constDist c2Ops initState).speedingStartTime = some 1500000000020000 := by
  have h1 : processLocation constDist 0 c2SampleA initState =
      { initState with lastLocation := some ⟨33, 35, 1500000000000000⟩,
                       recentSpeedSamples := [(0, 1500000000000000)] } := by
    norm_num [processLocation, speedPhase, refUpdatePhase, autoStartPhase, computeRawSpeed,
      coordsSpeedKmhOf, sampleTime, jsRound, initState, c2SampleA, constDist]
  have h2 : handleStartTrip (Except.ok 7)
      ({ initState with lastLocation := some ⟨33, 35, 1500000000000000⟩,
                        recentSpeedSamples := [(0, 1500000000000000)] } : AppState) =
      { initState with lastLocation := some ⟨33, 35, 1500000000000000⟩,
                       recentSpeedSamples := [(0, 1500000000000000)],
                       tripId := some 7, status := .driving } := by
    norm_num [handleStartTrip, initState]
  have h3 : processLocation constDist 0 c2SampleB
      ({ initState with lastLocation := some ⟨33, 35, 1500000000000000⟩,
                        recentSpeedSamples := [(0, 1500000000000000)],
                        tripId := some 7, status := .driving } : AppState) =
      { initState with lastLocation := some ⟨33, 35, 1500000000020000⟩,
                       recentSpeedSamples := [(0, 1500000000000000)],
                       tripId := some 7, status := .driving,
                       speedSum := 108, speedCount := 1,
                       tripLocationBuffer := [⟨33, 35, 1500000000020000, 108⟩],
                       smoothedSpeed := 189 / 5, speedKmh := 189 / 5,
                       lastSpeedCheckTime := 1500000000020000 } := by
    norm_num [processLocation, speedPhase, refUpdatePhase, autoStartPhase, crashFusePhase,
      cadencePhase, computeRawSpeed, coordsSpeedKmhOf, sampleTime, jsRound, initState,
      c2SampleB, constDist]
  have h4 : applySpeedCheck defaultInfo 108 1500000000020000
      ({ initState with lastLocation := some ⟨33, 35, 1500000000020000⟩,
                        recentSpeedSamples := [(0, 1500000000000000)],
                        tripId := some 7, status := .driving,
                        speedSum := 108, speedCount := 1,
                        tripLocationBuffer := [⟨33, 35, 1500000000020000, 108⟩],
                        smoothedSpeed := 189 / 5, speedKmh := 189 / 5,
                        lastSpeedCheckTime := 1500000000020000 } : AppState) =
      { initState with lastLocation := some ⟨33, 35, 1500000000020000⟩,
                       recentSpeedSamples := [(0, 1500000000000000)],
                       tripId := some 7, status := .driving,
                       speedSum := 108, speedCount := 1,
                       tripLocationBuffer := [⟨33, 35, 1500000000020000, 108⟩],
                       smoothedSpeed := 189 / 5, speedKmh := 189 / 5,
                       lastSpeedCheckTime := 1500000000020000,
                       currentSpeedLimit := some 60,
                       wasSpeeding := true,
                       speedingStartTime := some 1500000000020000,
                       speedingViolations := 1,
                       maxSpeedOverLimit := 48 } := by
    norm_num [applySpeedCheck, defaultInfo, initState]
  have h5 : handleEndTrip 1500000000025000 (Except.ok 80)
      ({ initState with lastLocation := some ⟨33, 35, 1500000000020000⟩,
                        recentSpeedSamples := [(0, 1500000000000000)],
                        tripId := some 7, status := .driving,
                        speedSum := 108, speedCount := 1,
                        tripLocationBuffer := [⟨33, 35, 1500000000020000, 108⟩],
                        smoothedSpeed := 189 / 5, speedKmh := 189 / 5,
                        lastSpeedCheckTime := 1500000000020000,
                        currentSpeedLimit := some 60,
                        wasSpeeding := true,
                        speedingStartTime := some 1500000000020000,
                        speedingViolations := 1,
                        maxSpeedOverLimit := 48 } : AppState) =
      { initState with lastLocation := some ⟨33, 35, 1500000000020000⟩,
                       recentSpeedSamples := [(0, 1500000000000000)],
                       speedSum := 108, speedCount := 1,
                       smoothedSpeed := 189 / 5, speedKmh := 189 / 5,
                       lastSpeedCheckTime := 1500000000020000,
                       currentSpeedLimit := some 60,
                       speedingStartTime := some 1500000000020000,
                       speedingViolations := 1,
                       maxSpeedOverLimit := 48,
                       speedingDuration := 5,
                       safetyScore := some 80 } := by
    norm_num [handleEndTrip, isTruthyTime, initState]
  have hrun : runOps constDist c2Ops initState =
      { initState with lastLocation := some ⟨33, 35, 1500000000020000⟩,
                       recentSpeedSamples := [(0, 1500000000000000)],
                       speedSum := 108, speedCount := 1,
                       smoothedSpeed := 189 / 5, speedKmh := 189 / 5,
                       lastSpeedCheckTime := 1500000000020000,
                       currentSpeedLimit := some 60,
                       speedingStartTime := some 1500000000020000,
                       speedingViolations := 1,
                       maxSpeedOverLimit := 48,
                       speedingDuration := 5,
                       safetyScore := some 80 } := by
    simp only [c2Ops, runOps, applyOp, h1, h2, h3, h4, h5]
  rw [hrun]
  exact ⟨rfl, rfl⟩

/-- **C2 (amended).** (i) At every state reachable from the initial
state by any sequence of operations, the forward half of the invariant
holds: a set speeding flag implies a set episode start time.
(ii) A successful trip start restores the full iff invariant from *any*
state — no matter how inconsistent — because it resets both fields; this
is what ends the post-trip-end failure window.
(iii) A speeding-check callback preserves the full iff invariant as long
as the stored episode start is not the (JS-falsy) literal time 0.
(iv) The trip-end finalization of a mid-flight episode, however, clears
only the flag and retains the start time, so after it the iff fails
until the next trip start. -/
theorem c2_amended :
    (∀ (dist : ℚ → ℚ → ℚ → ℚ → ℚ) (ops : List Op),
      speedingFlagImpliesStart (runOps dist ops initState)) ∧
    (∀ (tid : ℕ) (s : AppState), s.isStartingTrip = false → s.lastLocation ≠ none →
      speedingConsistent (handleStartTrip (Except.ok tid) s)) ∧
    (∀ (d : SpeedLimitInfo) (v t : ℚ) (s : AppState), speedingConsistent s →
      s.speedingStartTime ≠ some 0 →
      speedingConsistent (applySpeedCheck d v t s)) ∧
    (∀ (now : ℚ) (backend : Except String ℚ) (s : AppState) (u : ℚ),
      s.tripId ≠ none → s.lastLocation ≠ none →
      s.wasSpeeding = true → s.speedingStartTime = some u → u ≠ 0 →
      (handleEndTrip now backend s).wasSpeeding = false ∧
      (handleEndTrip now backend s).speedingStartTime = some u) := by
  refine ⟨?_, ?_, ?_, ?_⟩
  · intro dist ops
    exact speedingWeak_run dist ops initState (by simp [speedingFlagImpliesStart, initState])
  · intro tid s h1 h2
    rcases hl : s.lastLocation with _ | p
    · exact absurd hl h2
    · simp [handleStartTrip, h1, hl, speedingConsistent]
  · intro d v t s h hzero
    rcases hw : s.wasSpeeding <;> rcases hst : s.speedingStartTime with _ | u <;>
      simp only [applySpeedCheck, speedingConsistent, hw, hst, isTruthyTime] at h hzero ⊢ <;>
      (first | (split_ifs <;> simp_all) | simp_all)
  · intro now backend s u ht hl hw hst hu
    rcases htr : s.tripId with _ | tid
    · exact absurd htr ht
    rcases hll : s.lastLocation with _ | p
    · exact absurd hll hl
    have htruthy : isTruthyTime (some u) = true := by
      simp [isTruthyTime, hu]
    rcases backend with m | score <;>
      simp [handleEndTrip, htr, hll, hw, hst, htruthy]

/-- Witness for `c2_amended`: the weak invariant after the empty trace,
iff restoration by a successful start from an *inconsistent*
post-trip-end state (flag false, start time still set), iff preservation
by a speeding-check on the initial state, and the end-of-trip behaviour
on an Active mid-episode state. -/
theorem c2_witness :
    speedingFlagImpliesStart (runOps constDist [] initState) ∧
    speedingConsistent (handleStartTrip (Except.ok 1) c2PostEndState) ∧
    speedingConsistent (applySpeedCheck defaultInfo 0 0 initState) ∧
    ((handleEndTrip 3000 (Except.ok 50) c2EndState).wasSpeeding = false ∧
     (handleEndTrip 3000 (Except.ok 50) c2EndState).speedingStartTime = some 2000) :=
  ⟨c2_amended.1 constDist [],
   c2_amended.2.1 1 c2PostEndState rfl (by simp [c2PostEndState, initState]),
   c2_amended.2.2.1 defaultInfo 0 0 initState (by simp [speedingConsistent, initState])
     (by simp [initState]),
   c2_amended.2.2.2 3000 (Except.ok 50) c2EndState 2000 (by simp [c2EndState])
     (by simp [c2EndState]) (by simp [c2EndState, initState]) (by simp [c2EndState])
     (by norm_num)⟩

/-! ## Claim C8 -/

lemma crashFusePhase_crashDetected_formula (la lo : ℚ) (s : AppState) :
    (crashFusePhase la lo s).crashDetected =
      ((s.speedBasedCrash && s.sensorBasedCrash && !s.crashDetected) || s.crashDetected) := by
  rcases hsb : s.speedBasedCrash <;> rcases hss : s.sensorBasedCrash <;>
    rcases hcd : s.crashDetected <;> simp [crashFusePhase, hsb, hss, hcd]

lemma crashFusePhase_speedBasedCrash_formula (la lo : ℚ) (s : AppState) :
    (crashFusePhase la lo s).speedBasedCrash =
      (!(s.speedBasedCrash && s.sensorBasedCrash && !s.crashDetected) && s.speedBasedCrash) := by
  rcases hsb : s.speedBasedCrash <;> rcases hss : s.sensorBasedCrash <;>
    rcases hcd : s.crashDetected <;> simp [crashFusePhase, hsb, hss, hcd]

lemma crashFusePhase_sensorBasedCrash_formula (la lo : ℚ) (s : AppState) :
    (crashFusePhase la lo s).sensorBasedCrash =
      (!(s.speedBasedCrash && s.sensorBasedCrash && !s.crashDetected) && s.sensorBasedCrash) := by
  rcases hsb : s.speedBasedCrash <;> rcases hss : s.sensorBasedCrash <;>
    rcases hcd : s.crashDetected <;> simp [crashFusePhase, hsb, hss, hcd]

lemma crashFuse_clears (la lo : ℚ) (s : AppState) (h1 : s.crashDetected = false)
    (h2 : (crashFusePhase la lo s).crashDetected = true) :
    (crashFusePhase la lo s).speedBasedCrash = false ∧
    (crashFusePhase la lo s).sensorBasedCrash = false := by
  rcases hsb : s.speedBasedCrash <;> rcases hss : s.sensorBasedCrash <;>
    simp_all [crashFusePhase]

lemma crashFuse_cadence_clears (T la lo : ℚ) (X : AppState)
    (h1 : X.crashDetected = false)
    (h2 : (cadencePhase T (crashFusePhase la lo X)).crashDetected = true) :
    (cadencePhase T (crashFusePhase la lo X)).speedBasedCrash = false ∧
    (cadencePhase T (crashFusePhase la lo X)).sensorBasedCrash = false := by
  simp only [cadencePhase_crashDetected] at h2
  simp only [cadencePhase_speedBasedCrash, cadencePhase_sensorBasedCrash]
  exact crashFuse_clears la lo X h1 h2

lemma crash_mono_loc (dist : ℚ → ℚ → ℚ → ℚ → ℚ) (nf : ℚ) (sample : Sample)
    (s : AppState) (h : s.crashDetected = true) :
    (processLocation dist nf sample s).crashDetected = true := by
  rcases hla : sample.latitude with _ | la
  · simpa [processLocation, hla] using h
  rcases hlo : sample.longitude with _ | lo
  · simpa [processLocation, hla, hlo] using h
  simp only [processLocation, hla, hlo]
  rcases hp : s.lastLocation with _ | p
  · simp only [hp]
    split_ifs <;> simp [crashFusePhase_crashDetected_formula, h]
  · simp only [hp]
    split_ifs <;> simp [crashFusePhase_crashDetected_formula, h]

lemma crash_mono_step (dist : ℚ → ℚ → ℚ → ℚ → ℚ) (op : Op) (s : AppState)
    (hop : op.isTripOp = true) (h : s.crashDetected = true) :
    (applyOp dist op s).crashDetected = true := by
  cases op with
  | loc sample nf => exact crash_mono_loc dist nf sample s h
  | accel x y z => simpa [applyOp] using h
  | sensorDecay => simpa [applyOp] using h
  | speedCheck d v t => simpa [applyOp] using h
  | start backend => simp [Op.isTripOp] at hop
  | stop now backend => simp [Op.isTripOp] at hop

lemma riseCount_cons_crashTrace (dist : ℚ → ℚ → ℚ → ℚ → ℚ) (b : Bool)
    (ops : List Op) (s : AppState) :
    riseCount (b :: crashTrace dist ops s) =
      (if b = false ∧ s.crashDetected = true then 1 else 0) +
        riseCount (crashTrace dist ops s) := by
  cases ops <;> simp [crashTrace, riseCount]

lemma riseCount_crashTrace_of_true (dist : ℚ → ℚ → ℚ → ℚ → ℚ) (ops : List Op)
    (s : AppState) (hops : ops.all Op.isTripOp = true) (h : s.crashDetected = true) :
    riseCount (crashTrace dist ops s) = 0 := by
  induction ops generalizing s with
  | nil => simp [crashTrace, riseCount]
  | cons op rest ih =>
    simp only [List.all_cons, Bool.and_eq_true] at hops
    have : crashTrace dist (op :: rest) s =
        s.crashDetected :: crashTrace dist rest (applyOp dist op s) := rfl
    rw [this, riseCount_cons_crashTrace, h]
    simp only [Bool.true_eq_false, false_and, if_false, zero_add]
    exact ih (applyOp dist op s) hops.2 (crash_mono_step dist op s hops.1 h)

/-- **C8.** Within one Active trip (any interleaving of location
samples, accelerometer samples, sensor-flag decays and speed-check
callbacks), the trip-level crash flag rises from false to true at most
once along the whole trace; and at the location step that records the
crash, both signal flags are cleared. -/
theorem c8_crash_once :
    (∀ (dist : ℚ → ℚ → ℚ → ℚ → ℚ) (ops : List Op) (s : AppState),
      ops.all Op.isTripOp = true → riseCount (crashTrace dist ops s) ≤ 1) ∧
    (∀ (dist : ℚ → ℚ → ℚ → ℚ → ℚ) (nf : ℚ) (sample : Sample) (s : AppState),
      s.crashDetected = false →
      (processLocation dist nf sample s).crashDetected = true →
      (processLocation dist nf sample s).speedBasedCrash = false ∧
      (processLocation dist nf sample s).sensorBasedCrash = false) := by
  constructor
  · intro dist ops s hops
    induction ops generalizing s with
    | nil => simp [crashTrace, riseCount]
    | cons op rest ih =>
      simp only [List.all_cons, Bool.and_eq_true] at hops
      have hexp : crashTrace dist (op :: rest) s =
          s.crashDetected :: crashTrace dist rest (applyOp dist op s) := rfl
      rw [hexp, riseCount_cons_crashTrace]
      by_cases hcd : (applyOp dist op s).crashDetected = true
      · rw [riseCount_crashTrace_of_true dist rest _ hops.2 hcd]
        split_ifs <;> omega
      · have h0 : (if s.crashDetected = false ∧
            (applyOp dist op s).crashDetected = true then 1 else 0) = 0 := by
          simp only [ite_eq_right_iff]
          intro hc
          exact absurd hc.2 hcd
        rw [h0, zero_add]
        exact ih (applyOp dist op s) hops.2
  · intro dist nf sample s h1 h2
    rcases hla : sample.latitude with _ | la
    · simp only [processLocation, hla] at h2
      exact absurd h2 (by simp [h1])
    rcases hlo : sample.longitude with _ | lo
    · simp only [processLocation, hla, hlo] at h2
      exact absurd h2 (by simp [h1])
    simp only [processLocation, hla, hlo] at h2 ⊢
    rcases hp : s.lastLocation with _ | p
    · simp only [hp] at h2 ⊢
      split_ifs at h2 ⊢ <;>
        first
          | exact crashFuse_cadence_clears _ _ _ _ (by simp [h1]) h2
          | simp [h1] at h2
    · simp only [hp] at h2 ⊢
      split_ifs at h2 ⊢ <;>
        first
          | exact crashFuse_cadence_clears _ _ _ _ (by simp [h1]) h2
          | simp [h1] at h2

/-- Witness for `c8_crash_once`: the empty trace has no rise, and the
location sample that records the crash on `c8State` (both signal flags
set, no crash recorded yet) leaves both signal flags cleared. -/
theorem c8_witness :
    riseCount (crashTrace constDist [] initState) ≤ 1 ∧
    ((processLocation constDist 0 c8Sample c8State).speedBasedCrash = false ∧
     (processLocation constDist 0 c8Sample c8State).sensorBasedCrash = false) :=
  ⟨c8_crash_once.1 constDist [] initState rfl,
   c8_crash_once.2 constDist 0 c8Sample c8State rfl (by
     norm_num [processLocation, speedPhase, refUpdatePhase, autoStartPhase, crashFusePhase,
       cadencePhase, computeRawSpeed, coordsSpeedKmhOf, sampleTime, jsRound, c8Sample,
       c8State, initState, constDist])⟩

/-! ## Claim C9 -/

lemma timesOfKind_append (k : String) (l1 l2 : List HarshEvent) :
    timesOfKind k (l1 ++ l2) = timesOfKind k l1 ++ timesOfKind k l2 := by
  simp [timesOfKind]

lemma timesOfKind_single_same (k : String) (t x y v : ℚ) :
    timesOfKind k [⟨k, t, x, y, v⟩] = [t] := by
  simp [timesOfKind]

lemma timesOfKind_single_other {k k2 : String} (h : k2 ≠ k) (t x y v : ℚ) :
    timesOfKind k [⟨k2, t, x, y, v⟩] = [] := by
  simp [timesOfKind, h]

lemma harshInvE_nil (lb la2 : ℚ) : harshInvE [] lb la2 := by
  simp [harshInvE, timesOfKind, Sep3000]

lemma harshInvE_appendBrake {evs : List HarshEvent} {lb la2 t : ℚ} (x y v : ℚ)
    (h : harshInvE evs lb la2) (hg : t - lb ≥ 3000) :
    harshInvE (evs ++ [⟨"braking", t, x, y, v⟩]) t la2 := by
  obtain ⟨⟨hb1, hb2⟩, ha⟩ := h
  refine ⟨⟨?_, ?_⟩, ?_⟩
  · rw [timesOfKind_append, timesOfKind_single_same, Sep3000, List.pairwise_append]
    refine ⟨hb1, by simp [Sep3000], ?_⟩
    intro a ha' b hb'
    simp only [List.mem_singleton] at hb'
    subst hb'
    have := hb2 a ha'
    linarith
  · intro u hu
    rw [timesOfKind_append, timesOfKind_single_same, List.mem_append] at hu
    rcases hu with hu | hu
    · have := hb2 u hu
      linarith
    · simp only [List.mem_singleton] at hu
      subst hu
      exact le_refl u
  · rw [timesOfKind_append, timesOfKind_single_other (by decide)]
    simpa using ha

lemma harshInvE_appendAccel {evs : List HarshEvent} {lb la2 t : ℚ} (x y v : ℚ)
    (h : harshInvE evs lb la2) (hg : t - la2 ≥ 3000) :
    harshInvE (evs ++ [⟨"acceleration", t, x, y, v⟩]) lb t := by
  obtain ⟨hb, ⟨ha1, ha2⟩⟩ := h
  refine ⟨?_, ⟨?_, ?_⟩⟩
  · rw [timesOfKind_append, timesOfKind_single_other (by decide)]
    simpa using hb
  · rw [timesOfKind_append, timesOfKind_single_same, Sep3000, List.pairwise_append]
    refine ⟨ha1, by simp [Sep3000], ?_⟩
    intro a ha' b hb'
    simp only [List.mem_singleton] at hb'
    subst hb'
    have := ha2 a ha'
    linarith
  · intro u hu
    rw [timesOfKind_append, timesOfKind_single_same, List.mem_append] at hu
    rcases hu with hu | hu
    · have := ha2 u hu
      linarith
    · simp only [List.mem_singleton] at hu
      subst hu
      exact le_refl u

lemma harshInv_of_fields {s1 s2 : AppState} (he : s1.harshEvents = s2.harshEvents)
    (hb : s1.lastHarshBrakeTime = s2.lastHarshBrakeTime)
    (ha : s1.lastHarshAccelTime = s2.lastHarshAccelTime)
    (h : harshInv s2) : harshInv s1 := by
  unfold harshInv at *
  rw [he, hb, ha]
  exact h

lemma brakeUpdate_inv (flag : Bool) (la lo time rawSpeed : ℚ) (s : AppState)
    (h : harshInv s) : harshInv (brakeUpdate flag la lo time rawSpeed s) := by
  unfold brakeUpdate
  split_ifs with hc
  · simp only [Bool.and_eq_true, decide_eq_true_eq] at hc
    unfold harshInv at h ⊢
    exact harshInvE_appendBrake la lo rawSpeed h hc.2
  · exact h

lemma accelUpdate_inv (flag : Bool) (la lo time rawSpeed : ℚ) (s : AppState)
    (h : harshInv s) : harshInv (accelUpdate flag la lo time rawSpeed s) := by
  unfold accelUpdate
  split_ifs with hc
  · simp only [Bool.and_eq_true, decide_eq_true_eq] at hc
    unfold harshInv at h ⊢
    exact harshInvE_appendAccel la lo rawSpeed h hc.2
  · exact h

lemma harshPhase_inv (la lo t pt rs ps : ℚ) (acc : Option ℚ) (s : AppState)
    (h : harshInv s) : harshInv (harshPhase la lo t pt rs ps acc s) := by
  simp only [harshPhase]
  split_ifs <;>
    first
      | exact h
      | exact accelUpdate_inv _ la lo t rs _ (brakeUpdate_inv _ la lo t rs s h)

lemma harshInv_cadencePhase (t : ℚ) (s : AppState) :
    harshInv (cadencePhase t s) ↔ harshInv s := by
  unfold harshInv
  rw [cadencePhase_harshEvents, cadencePhase_lastHarshBrakeTime,
    cadencePhase_lastHarshAccelTime]

lemma harshInv_crashFusePhase (la lo : ℚ) (s : AppState) :
    harshInv (crashFusePhase la lo s) ↔ harshInv s := by
  unfold harshInv
  rw [crashFusePhase_harshEvents, crashFusePhase_lastHarshBrakeTime,
    crashFusePhase_lastHarshAccelTime]

lemma harshInv_step (dist : ℚ → ℚ → ℚ → ℚ → ℚ) (op : Op) (s : AppState)
    (h : harshInv s) : harshInv (applyOp dist op s) := by
  cases op with
  | loc sample nf =>
    simp only [applyOp]
    rcases hla : sample.latitude with _ | la
    · simp only [processLocation, hla]
      exact h
    rcases hlo : sample.longitude with _ | lo
    · simp only [processLocation, hla, hlo]
      exact h
    simp only [processLocation, hla, hlo]
    rcases hp : s.lastLocation with _ | p <;>
      simp only [hp] <;>
      (first
        | (split_ifs <;>
            first
              | (rw [harshInv_cadencePhase, harshInv_crashFusePhase]
                 first
                   | exact harshPhase_inv _ _ _ _ _ _ _ _ (by
                       unfold harshInv at h ⊢
                       simpa using h)
                   | (unfold harshInv at h ⊢
                      simpa using h))
              | (unfold harshInv at h ⊢
                 simpa using h))
        | (unfold harshInv at h ⊢
           simpa using h))
  | accel x y z =>
    unfold harshInv at h ⊢
    simpa [applyOp] using h
  | sensorDecay =>
    unfold harshInv at h ⊢
    simpa [applyOp] using h
  | speedCheck d v t =>
    unfold harshInv at h ⊢
    simpa [applyOp] using h
  | start backend =>
    simp only [applyOp]
    rcases backend with m | tid <;> rcases hl : s.lastLocation with _ | p <;>
      simp only [handleStartTrip, hl] <;>
      (first
        | (split_ifs <;>
            first
              | exact h
              | exact harshInv_of_fields rfl rfl rfl h
              | exact harshInvE_nil 0 0)
        | exact h
        | exact harshInv_of_fields rfl rfl rfl h
        | exact harshInvE_nil 0 0)
  | stop now backend =>
    simp only [applyOp]
    rcases ht : s.tripId with _ | tid <;> rcases hl : s.lastLocation with _ | p <;>
      rcases backend with m | score <;> simp only [handleEndTrip, ht, hl] <;>
      (first
        | (split_ifs <;>
            first
              | exact h
              | exact harshInv_of_fields rfl rfl rfl h
              | exact harshInvE_nil _ _)
        | exact h
        | exact harshInv_of_fields rfl rfl rfl h
        | exact harshInvE_nil _ _)

lemma harshInv_run (dist : ℚ → ℚ → ℚ → ℚ → ℚ) (ops : List Op) (s : AppState)
    (h : harshInv s) : harshInv (runOps dist ops s) := by
  induction ops generalizing s with
  | nil => exact h
  | cons op rest ih => exact ih _ (harshInv_step dist op s h)

lemma brakeUpdate_suppressed (flag : Bool) (la lo time rawSpeed : ℚ) (s : AppState)
    (hcool : time - s.lastHarshBrakeTime < 3000) :
    brakeUpdate flag la lo time rawSpeed s = s := by
  unfold brakeUpdate
  rw [if_neg]
  simp only [Bool.and_eq_true, decide_eq_true_eq, not_and]
  intro _
  linarith

lemma accelUpdate_suppressed (flag : Bool) (la lo time rawSpeed : ℚ) (s : AppState)
    (hcool : time - s.lastHarshAccelTime < 3000) :
    accelUpdate flag la lo time rawSpeed s = s := by
  unfold accelUpdate
  rw [if_neg]
  simp only [Bool.and_eq_true, decide_eq_true_eq, not_and]
  intro _
  linarith

lemma accelUpdate_brakeTimes (flag : Bool) (la lo time rawSpeed : ℚ) (s : AppState) :
    timesOfKind "braking" (accelUpdate flag la lo time rawSpeed s).harshEvents =
      timesOfKind "braking" s.harshEvents := by
  unfold accelUpdate
  split_ifs
  · rw [timesOfKind_append, timesOfKind_single_other (by decide)]
    simp
  · rfl

lemma brakeUpdate_accelTimes (flag : Bool) (la lo time rawSpeed : ℚ) (s : AppState) :
    timesOfKind "acceleration" (brakeUpdate flag la lo time rawSpeed s).harshEvents =
      timesOfKind "acceleration" s.harshEvents := by
  unfold brakeUpdate
  split_ifs
  · rw [timesOfKind_append, timesOfKind_single_other (by decide)]
    simp
  · rfl

lemma brakeUpdate_lastHarshAccelTime (flag : Bool) (la lo time rawSpeed : ℚ)
    (s : AppState) :
    (brakeUpdate flag la lo time rawSpeed s).lastHarshAccelTime =
      s.lastHarshAccelTime := by
  unfold brakeUpdate
  split_ifs <;> rfl

lemma harshPhase_brakeTimes_suppressed (la lo t pt rs ps : ℚ) (acc : Option ℚ)
    (s : AppState) (hcool : t - s.lastHarshBrakeTime < 3000) :
    timesOfKind "braking" (harshPhase la lo t pt rs ps acc s).harshEvents =
      timesOfKind "braking" s.harshEvents := by
  simp only [harshPhase]
  split_ifs <;>
    first
      | rfl
      | (rw [accelUpdate_brakeTimes, brakeUpdate_suppressed _ la lo t rs s hcool])

lemma harshPhase_accelTimes_suppressed (la lo t pt rs ps : ℚ) (acc : Option ℚ)
    (s : AppState) (hcool : t - s.lastHarshAccelTime < 3000) :
    timesOfKind "acceleration" (harshPhase la lo t pt rs ps acc s).harshEvents =
      timesOfKind "acceleration" s.harshEvents := by
  simp only [harshPhase]
  split_ifs <;>
    first
      | rfl
      | (rw [accelUpdate_suppressed _ la lo t rs _
               (by rw [brakeUpdate_lastHarshAccelTime]; exact hcool),
             brakeUpdate_accelTimes])

/-- **C9.** Harsh-event cooldown: starting from any state satisfying the
cooldown invariant (in particular a fresh trip, whose event list is
empty), after any sequence of operations the recorded events of each
kind are pairwise at least 3000 ms apart; and a location sample arriving
within 3 s of the last counted event of a kind appends no event of that
kind, whatever the candidate flags. -/
theorem c9_harsh_cooldown :
    (∀ (dist : ℚ → ℚ → ℚ → ℚ → ℚ) (ops : List Op) (s : AppState), harshInv s →
      Sep3000 (eventTimesOf "braking" (runOps dist ops s)) ∧
      Sep3000 (eventTimesOf "acceleration" (runOps dist ops s))) ∧
    (∀ (dist : ℚ → ℚ → ℚ → ℚ → ℚ) (nf : ℚ) (sample : Sample) (s : AppState),
      sampleTime nf sample.timestampRaw - s.lastHarshBrakeTime < 3000 →
      eventTimesOf "braking" (processLocation dist nf sample s) =
        eventTimesOf "braking" s) ∧
    (∀ (dist : ℚ → ℚ → ℚ → ℚ → ℚ) (nf : ℚ) (sample : Sample) (s : AppState),
      sampleTime nf sample.timestampRaw - s.lastHarshAccelTime < 3000 →
      eventTimesOf "acceleration" (processLocation dist nf sample s) =
        eventTimesOf "acceleration" s) := by
  refine ⟨?_, ?_, ?_⟩
  · intro dist ops s h
    have h2 := harshInv_run dist ops s h
    exact ⟨h2.1.1, h2.2.1⟩
  · intro dist nf sample s hcool
    rcases hla : sample.latitude with _ | la
    · simp only [processLocation, hla]
    rcases hlo : sample.longitude with _ | lo
    · simp only [processLocation, hla, hlo]
    simp only [processLocation, hla, hlo, eventTimesOf]
    rcases hp : s.lastLocation with _ | p
    · simp only [hp]
      split_ifs <;> simp
    · simp only [hp]
      split_ifs <;>
        first
          | (simp
             done)
          | (simp only [cadencePhase_harshEvents, crashFusePhase_harshEvents]
             rw [harshPhase_brakeTimes_suppressed] <;>
               first
                 | (simp
                    done)
                 | (simpa using hcool))
  · intro dist nf sample s hcool
    rcases hla : sample.latitude with _ | la
    · simp only [processLocation, hla]
    rcases hlo : sample.longitude with _ | lo
    · simp only [processLocation, hla, hlo]
    simp only [processLocation, hla, hlo, eventTimesOf]
    rcases hp : s.lastLocation with _ | p
    · simp only [hp]
      split_ifs <;> simp
    · simp only [hp]
      split_ifs <;>
        first
          | (simp
             done)
          | (simp only [cadencePhase_harshEvents, crashFusePhase_harshEvents]
             rw [harshPhase_accelTimes_suppressed] <;>
               first
                 | (simp
                    done)
                 | (simpa using hcool))

/-- Witness for `c9_harsh_cooldown`: the empty trace from the initial
state (whose event list is empty) keeps both kinds 3000 ms-separated,
and a sample 2 s after the (zero) brake cooldown clock appends no brake
event. -/
theorem c9_witness :
    Sep3000 (eventTimesOf "braking" (runOps constDist [] initState)) ∧
    eventTimesOf "braking"
        (processLocation constDist 0
          (⟨some 1, some 1, some 2, none, none⟩ : Sample) initState) =
      eventTimesOf "braking" initState :=
  ⟨(c9_harsh_cooldown.1 constDist [] initState
      (by simp [harshInv, harshInvE, timesOfKind, Sep3000, initState])).1,
   c9_harsh_cooldown.2.1 constDist 0 _ initState
     (by norm_num [sampleTime, initState])⟩

end Telematics
